import Mathlib

/-!
Shallow embedding of the response-interpretation and tool-dispatch engine of
the Reva backend (src/server.js), together with proofs about the claims of
its specification.

Modelling conventions:
* JavaScript values reaching the engine (decoded JSON, tool parameters,
  request bodies) are modelled by the inductive type `JVal`; JS numbers are
  modelled as rationals (the claims under study never depend on binary
  floating point rounding or on NaN).
* Platform collaborators (the uuid library, crypto.randomBytes, Math.random,
  JSON.parse, new Date parsing, the upstream completion call, the current
  timestamp) are passed in as explicit parameters; `Except` models a JS
  function that can throw.
* Property access on `null`/`undefined` (a TypeError in JS) is modelled as
  yielding `undefined`; `.trim()` on a non-string (also a TypeError) is
  modelled as the identity.  Both corners are outside every claim: on the
  affected paths both the real code and the model end in a failed tool call.
-/

namespace Reva

/-- Model of a JavaScript runtime value (JSON values plus `undefined`). -/
inductive JVal where
  | undefined : JVal
  | null : JVal
  | bool : Bool → JVal
  | num : ℚ → JVal
  | str : String → JVal
  | arr : List JVal → JVal
  | obj : List (String × JVal) → JVal

/-- JS truthiness: `undefined`, `null`, `false`, `0`, `""` are falsy. -/
def truthy : JVal → Bool
  | .undefined => false
  | .null => false
  | .bool b => b
  | .num q => q != 0
  | .str s => s != ""
  | .arr _ => true
  | .obj _ => true

/-- First-match association lookup on object fields. -/
def lookupField : List (String × JVal) → String → Option JVal
  | [], _ => none
  | (k, v) :: rest, key => if k = key then some v else lookupField rest key

/-- JS property access `v[key]`, yielding `undefined` when absent. -/
def JVal.get : JVal → String → JVal
  | .obj fs, key =>
      match lookupField fs key with
      | some v => v
      | none => .undefined
  | _, _ => .undefined

/-- JS array index access, yielding `undefined` when out of range. -/
def JVal.idx : JVal → Nat → JVal
  | .arr xs, i => xs.getD i .undefined
  | _, _ => .undefined

/-- JS short-circuit `a || b`. -/
def jsOr (a b : JVal) : JVal := if truthy a then a else b

/-- Is the value the JS `undefined` (used for `!== undefined` tests)? -/
def isUndefined : JVal → Bool
  | .undefined => true
  | _ => false

/-- Is the value a string (JS `typeof v === 'string'`)? -/
def isStrB : JVal → Bool
  | .str _ => true
  | _ => false

/-- Is the value a number (JS `typeof v === 'number'`)? -/
def isNumB : JVal → Bool
  | .num _ => true
  | _ => false

/-- JS `typeof v === 'object'`: true for `null`, arrays and plain objects. -/
def isObjType : JVal → Bool
  | .null => true
  | .arr _ => true
  | .obj _ => true
  | _ => false

/-- Numeric value of a JS number, defaulting to 0 on other values. -/
def numOf : JVal → ℚ
  | .num q => q
  | _ => 0

/-- Is the character ASCII whitespace (the whitespace JS `trim` removes,
restricted to ASCII; the claims never involve exotic unicode spacing)? -/
def isWsChar (c : Char) : Bool :=
  c == ' ' || c == '\t' || c == '\n' || c == '\r'

/-- JS `String.prototype.trim`, over the character list. -/
def jsTrim (s : String) : String :=
  String.mk ((((s.data.dropWhile isWsChar).reverse.dropWhile isWsChar).reverse))

/-- JS `String.prototype.trim` lifted to values (identity off strings). -/
def trimVal : JVal → JVal
  | .str s => .str (jsTrim s)
  | v => v

/-- Assignment `obj[key] = v`: replace the first binding of `key` in place,
or append a fresh binding (object literal spread-and-override semantics). -/
def setKey : List (String × JVal) → String → JVal → List (String × JVal)
  | [], key, v => [(key, v)]
  | (k, w) :: rest, key, v =>
      if k = key then (key, v) :: rest else (k, w) :: setKey rest key v

/-- Does the needle occur as a contiguous substring (JS `includes`)? -/
def containsSub (pat : List Char) : List Char → Bool
  | [] => pat.isPrefixOf ([] : List Char)
  | c :: rest => pat.isPrefixOf (c :: rest) || containsSub pat rest

/-- Substring test on strings (JS `s.includes(pat)`). -/
def strContains (s pat : String) : Bool := containsSub pat.data s.data

/-- The character `{`, written via its code point. -/
def lbraceChar : Char := Char.ofNat 123

/-- The character `}`, written via its code point. -/
def rbraceChar : Char := Char.ofNat 125

/-- Is the character a hex digit (the regex class `[0-9a-f]` with flag i)? -/
def hexChar (c : Char) : Bool :=
  c.isDigit || (decide ('a' ≤ c) && decide (c ≤ 'f')) ||
    (decide ('A' ≤ c) && decide (c ≤ 'F'))

/-- Is the character in the regex class `[89ab]` with flag i? -/
def variantChar (c : Char) : Bool :=
  c == '8' || c == '9' || c == 'a' || c == 'b' || c == 'A' || c == 'B'

/-- What the UUID v4 regex demands of the character at position `i`:
hyphens at 8/13/18/23, the literal `4` at 14, `[89ab]` (case-insensitive)
at 19, hex everywhere else. -/
def charOkUUID (i : Nat) (c : Char) : Bool :=
  if i = 8 ∨ i = 13 ∨ i = 18 ∨ i = 23 then c == '-'
  else if i = 14 then c == '4'
  else if i = 19 then variantChar c
  else hexChar c

/-- The UUID v4 format test used throughout server.js:
`/^[0-9a-f]{8}-[0-9a-f]{4}-4[0-9a-f]{3}-[89ab][0-9a-f]{3}-[0-9a-f]{12}$/i`. -/
def uuidRegexTest (s : String) : Bool :=
  s.data.length == 36 &&
    (List.range 36).all (fun i => charOkUUID i (s.data.getD i ' '))

/-- `isValidUUID` from server.js: non-strings are rejected, strings are
matched against the UUID v4 regex. -/
def isValidUUID : JVal → Bool
  | .str s => uuidRegexTest s
  | _ => false

/-- Model of a JS `Error` object with the ad hoc fields server.js attaches. -/
structure JsError where
  message : String
  code : Option String := none
  primaryError : Option String := none
  fallbackError : Option String := none
  cryptoError : Option String := none
  mathError : Option String := none
  timestamp : Option String := none
  generatedValue : Option String := none
  tool : Option String := none
  params : Option JVal := none
  responseStatus : Option Nat := none

/-- `isRetryableError` from server.js. -/
def isRetryableError (e : JsError) : Bool :=
  (match e.code with
   | some c =>
       ([ "UUID_GENERATION_FAILURE", "NETWORK_ERROR", "TIMEOUT_ERROR",
          "TEMPORARY_FAILURE" ] : List String).contains c
   | none => false) ||
  containsSub "timeout".data e.message.data

/-- Lowercase hex digit of `n % 16` (JS `v.toString(16)` for a nibble). -/
def hexNibble (n : Nat) : Char := "0123456789abcdef".data.getD (n % 16) '0'

/-- The two lowercase hex digits of one buffer byte. -/
def byteHex (b : Nat) : List Char := [hexNibble ((b % 256) / 16), hexNibble (b % 256)]

/-- Node `buffer.toString('hex')`. -/
def bufferHex (bytes : List Nat) : List Char := (bytes.map byteHex).flatten

/-- Force the version nibble: `bytes[6] = (bytes[6] & 0x0f) | 0x40` and the
variant bits: `bytes[8] = (bytes[8] & 0x3f) | 0x80` (out-of-range writes on
a short buffer are ignored, like Node buffer element assignment). -/
def forceVersionVariant (bytes : List Nat) : List Nat :=
  let b6 := (bytes.getD 6 0) % 16 + 64
  let b8 := (bytes.getD 8 0) % 64 + 128
  (bytes.set 6 b6).set 8 b8

/-- Slice `[a, b)` of a character list (JS `hex.substring(a, b)`). -/
def subSlice (cs : List Char) (a b : Nat) : List Char := (cs.take b).drop a

/-- Tier 2 rendering: hex groups `8-4-4-4-12` joined with hyphens. -/
def cryptoUuidStr (bytes : List Nat) : String :=
  let hx := bufferHex (forceVersionVariant bytes)
  String.mk (subSlice hx 0 8 ++ '-' :: subSlice hx 8 12 ++ '-' :: subSlice hx 12 16 ++
    '-' :: subSlice hx 16 20 ++ '-' :: subSlice hx 20 32)

/-- Tier 3 template replacement: the i-th `x`/`y` of the template consumes
the i-th `Math.random()` draw `r` (modelled as an arbitrary natural whose
`% 16` is the nibble `Math.random() * 16 | 0`); `x` becomes the nibble,
`y` becomes `(r & 0x3) | 0x8`. -/
def mathReplace (rand : Nat → Nat) : List Char → Nat → List Char
  | [], _ => []
  | c :: cs, i =>
      if c = 'x' then hexNibble (rand i % 16) :: mathReplace rand cs (i + 1)
      else if c = 'y' then hexNibble ((rand i % 16) % 4 + 8) :: mathReplace rand cs (i + 1)
      else c :: mathReplace rand cs i

/-- Tier 3 construction from the template `xxxxxxxx-xxxx-4xxx-yxxx-xxxxxxxxxxxx`. -/
def mathUuidStr (rand : Nat → Nat) : String :=
  String.mk (mathReplace rand ("xxxxxxxx-xxxx-4xxx-yxxx-xxxxxxxxxxxx".data) 0)

/-- Tier 2 attempt of `generateFallbackUUID`: either crypto.randomBytes is
unavailable (throws, carried as `.error`), or the constructed string is
validated; an invalid construction throws inside the same try block. -/
def cryptoAttempt (cryptoBytes : Except String (List Nat)) : Except String String :=
  match cryptoBytes with
  | .ok bytes =>
      let u := cryptoUuidStr bytes
      if uuidRegexTest u then .ok u
      else .error (s! "Crypto fallback generated invalid UUID: {u}")
  | .error m => .error m

/-- Tier 3 attempt of `generateFallbackUUID`: either Math.random throws, or
the constructed string is validated. -/
def mathAttempt (mathTier : Except String (Nat → Nat)) : Except String String :=
  match mathTier with
  | .ok rand =>
      let u := mathUuidStr rand
      if uuidRegexTest u then .ok u
      else .error (s! "Math.random fallback generated invalid UUID: {u}")
  | .error m => .error m

/-- `generateFallbackUUID` from server.js: try the crypto tier, then the
Math.random tier; if both fail, throw the comprehensive
`FALLBACK_UUID_FAILURE` error carrying both tier messages. -/
def generateFallbackUUID (cryptoBytes : Except String (List Nat))
    (mathTier : Except String (Nat → Nat)) (now : String) : Except JsError String :=
  match cryptoAttempt cryptoBytes with
  | .ok u => .ok u
  | .error cmsg =>
      match mathAttempt mathTier with
      | .ok u => .ok u
      | .error mmsg =>
          .error { message := "All UUID fallback methods failed",
                   code := some "FALLBACK_UUID_FAILURE",
                   cryptoError := some cmsg, mathError := some mmsg,
                   timestamp := some now }

/-- The catch block of `generateUUID`: escalate a primary failure into the
fallback chain and, if that also fails, throw `UUID_GENERATION_FAILURE`
carrying the primary message and the message of the fallback error. -/
def fallbackEscalate (primaryMsg : String) (cryptoBytes : Except String (List Nat))
    (mathTier : Except String (Nat → Nat)) (now : String) : Except JsError String :=
  match generateFallbackUUID cryptoBytes mathTier now with
  | .ok u => .ok u
  | .error fe =>
      .error { message := "UUID generation system failure",
               code := some "UUID_GENERATION_FAILURE",
               primaryError := some primaryMsg,
               fallbackError := some fe.message,
               timestamp := some now }

/-- `generateUUID` from server.js.  `libUuid` is the library `uuidv4()` call
(its result, or the message of an exception it threw); the tier 1 value is
validated against the UUID v4 regex before being returned. -/
def generateUUID (libUuid : Except String String)
    (cryptoBytes : Except String (List Nat))
    (mathTier : Except String (Nat → Nat)) (now : String) : Except JsError String :=
  match libUuid with
  | .ok u =>
      if uuidRegexTest u then .ok u
      else fallbackEscalate "Generated UUID does not match v4 format" cryptoBytes mathTier now
  | .error m => fallbackEscalate m cryptoBytes mathTier now

/-- `getEntityName` from server.js. -/
def getEntityName : JVal → String
  | .str "createReminder" => "reminder"
  | .str "updateReminder" => "reminder"
  | .str "createTask" => "task"
  | .str "updateTask" => "task"
  | .str "trackExpenses" => "expense"
  | .str "createGoal" => "goal"
  | .str "updateGoal" => "goal"
  | .str "createJournalEntry" => "journal entry"
  | _ => "item"

/-- `getManualSection` from server.js. -/
def getManualSection : JVal → String
  | .str "createReminder" => "Reminders"
  | .str "updateReminder" => "Reminders"
  | .str "createTask" => "Tasks"
  | .str "updateTask" => "Tasks"
  | .str "trackExpenses" => "Expenses"
  | .str "createGoal" => "Goals"
  | .str "updateGoal" => "Goals"
  | .str "createJournalEntry" => "Journal"
  | _ => "appropriate"

/-- `getUserFriendlyErrorMessage` from server.js. -/
def getUserFriendlyErrorMessage (toolName : JVal) (e : JsError) : String :=
  if e.code = some "UUID_GENERATION_FAILURE" then
    s! "Unable to create {getEntityName toolName} due to system error. Please try again."
  else if e.code = some "INVALID_UUID_FORMAT" then
    s! "System error occurred while creating {getEntityName toolName}. Please try again."
  else
    match toolName with
    | .str "createReminder" => "Unable to create reminder. Please check your input and try again."
    | .str "createTask" => "Unable to create task. Please check your input and try again."
    | .str "trackExpenses" => "Unable to track expenses. Please check your input and try again."
    | .str "createGoal" => "Unable to create goal. Please check your input and try again."
    | .str "createJournalEntry" => "Unable to create journal entry. Please check your input and try again."
    | .str "updateReminder" => "Unable to update reminder. Please try again."
    | .str "updateTask" => "Unable to update task. Please try again."
    | .str "updateGoal" => "Unable to update goal. Please try again."
    | _ => "An error occurred while processing your request. Please try again."

/-- `getSuggestedAction` from server.js. -/
def getSuggestedAction (toolName : JVal) (e : JsError) : String :=
  if e.code = some "UUID_GENERATION_FAILURE" ∨ e.code = some "INVALID_UUID_FORMAT" then
    s! "Try creating the {getEntityName toolName} manually in the {getManualSection toolName} section."
  else
    match toolName with
    | .str "createReminder" => "Try creating the reminder manually in the Reminders section."
    | .str "createTask" => "Try creating the task manually in the Tasks section."
    | .str "trackExpenses" => "Try adding the expense manually in the Expenses section."
    | .str "createGoal" => "Try creating the goal manually in the Goals section."
    | .str "createJournalEntry" => "Try creating the journal entry manually in the Journal section."
    | .str "updateReminder" => "Try updating the reminder manually in the Reminders section."
    | .str "updateTask" => "Try updating the task manually in the Tasks section."
    | .str "updateGoal" => "Try updating the goal manually in the Goals section."
    | _ => "Please try the operation again or contact support if the issue persists."

/-- The `error.code || UNKNOWN_ERROR` default as a JS value. -/
def errCodeVal (e : JsError) : JVal :=
  jsOr (match e.code with
        | some c => .str c
        | none => .undefined) (.str "UNKNOWN_ERROR")

/-- `createToolErrorResponse` from server.js, as the structured JS object it
returns (`stack` is `undefined` outside development mode). -/
def createToolErrorResponse (toolName : JVal) (e : JsError) (params : JVal)
    (now : String) : JVal :=
  .obj [("error", .bool true),
        ("tool", toolName),
        ("message", .str (getUserFriendlyErrorMessage toolName e)),
        ("technicalDetails",
          .obj [("errorMessage", .str e.message),
                ("errorCode", errCodeVal e),
                ("timestamp", .str now),
                ("parameters", params),
                ("stack", .undefined)]),
        ("suggestedAction", .str (getSuggestedAction toolName e)),
        ("retryable", .bool (isRetryableError e))]

/-- The fragment of ActionResult fields one tool execution contributes; a
field the tool does not set is `undefined`. -/
structure Frag where
  actionMetadata : JVal := .undefined
  contextItemId : JVal := .undefined
  contextItemType : JVal := .undefined
  updatedItemType : JVal := .undefined
  actionIcon : JVal := .undefined
  multipleActions : JVal := .undefined
  errorDetails : JVal := .undefined

/-- The catch-and-rethrow wrapper of each executor: annotate the error with
the tool name and the original parameters. -/
def annot (t : String) (params : JVal) (e : JsError) : JsError :=
  { e with tool := some t, params := some params }

/-- The sequence of `generateUUID()` results available to an executor: the
i-th call of the dispatcher-side generator yields `gen i`. -/
def Gen := Nat → Except JsError String

/-- `executeCreateTask` body (before the catch-and-rethrow wrapper). -/
def executeCreateTaskBody (gen : Gen) (params : JVal) : Except JsError Frag :=
  if ¬ (truthy (params.get "description") && isStrB (params.get "description")) then
    .error { message := "Task description is required and must be a string",
             code := some "INVALID_PARAMETERS" }
  else
    match gen 0 with
    | .error e => .error e
    | .ok taskId =>
        if ¬ uuidRegexTest taskId then
          .error { message := "Generated task ID is invalid", code := some "INVALID_TASK_ID" }
        else
          .ok { actionMetadata :=
                  .obj [("tool", .str "createTask"),
                        ("description", trimVal (params.get "description")),
                        ("priority", jsOr (params.get "priority") (.str "medium")),
                        ("due_date", params.get "dueDate"),
                        ("task_id", .str taskId)],
                contextItemId := .str taskId,
                contextItemType := .str "task",
                updatedItemType := .str "task",
                actionIcon := .str "task" }

/-- `executeCreateTask` from server.js. -/
def executeCreateTask (gen : Gen) (params : JVal) : Except JsError Frag :=
  (executeCreateTaskBody gen params).mapError (annot "createTask" params)

/-- `executeUpdateTask` body. -/
def executeUpdateTaskBody (gen : Gen) (params : JVal) : Except JsError Frag :=
  let taskId := jsOr (params.get "taskId") (params.get "id")
  if ¬ (truthy taskId && isStrB taskId) then
    .error { message := "Task ID is required for updates", code := some "MISSING_TASK_ID" }
  else if ¬ isValidUUID taskId then
    .error { message := "Invalid task ID format", code := some "INVALID_TASK_ID_FORMAT" }
  else
    let updates := jsOr (params.get "updates") params
    if ¬ (truthy updates && isObjType updates) then
      .error { message := "Update data is required", code := some "MISSING_UPDATE_DATA" }
    else
      .ok { actionMetadata :=
              .obj [("tool", .str "updateTask"),
                    ("task_id", taskId),
                    ("updates", updates)],
            contextItemId := taskId,
            contextItemType := .str "task",
            updatedItemType := .str "task",
            actionIcon := .str "edit" }

/-- `executeUpdateTask` from server.js (it performs no identifier minting,
so the generator argument is never consulted). -/
def executeUpdateTask (gen : Gen) (params : JVal) : Except JsError Frag :=
  (executeUpdateTaskBody gen params).mapError (annot "updateTask" params)

/-- `executeCreateReminder` body; `dateOk v` models
`!isNaN(new Date(v).getTime())`. -/
def executeCreateReminderBody (dateOk : JVal → Bool) (gen : Gen) (params : JVal) :
    Except JsError Frag :=
  if ¬ (truthy (params.get "title") && isStrB (params.get "title")) then
    .error { message := "Reminder title is required and must be a string",
             code := some "INVALID_PARAMETERS" }
  else if truthy (params.get "scheduledTime") && ! dateOk (params.get "scheduledTime") then
    .error { message := "Invalid scheduled time format", code := some "INVALID_SCHEDULED_TIME" }
  else
    match gen 0 with
    | .error e => .error e
    | .ok reminderId =>
        if ¬ uuidRegexTest reminderId then
          .error { message := "Generated reminder ID is invalid",
                   code := some "INVALID_REMINDER_ID" }
        else
          .ok { actionMetadata :=
                  .obj [("tool", .str "createReminder"),
                        ("title", trimVal (params.get "title")),
                        ("description",
                          if truthy (params.get "description") then
                            trimVal (params.get "description")
                          else .null),
                        ("scheduled_time", params.get "scheduledTime"),
                        ("reminder_id", .str reminderId)],
                contextItemId := .str reminderId,
                contextItemType := .str "reminder",
                updatedItemType := .str "reminder",
                actionIcon := .str "notifications" }

/-- `executeCreateReminder` from server.js. -/
def executeCreateReminder (dateOk : JVal → Bool) (gen : Gen) (params : JVal) :
    Except JsError Frag :=
  (executeCreateReminderBody dateOk gen params).mapError (annot "createReminder" params)

/-- `executeUpdateReminder` body. -/
def executeUpdateReminderBody (dateOk : JVal → Bool) (gen : Gen) (params : JVal) :
    Except JsError Frag :=
  let reminderId := jsOr (params.get "reminderId") (params.get "id")
  if ¬ (truthy reminderId && isStrB reminderId) then
    .error { message := "Reminder ID is required for updates",
             code := some "MISSING_REMINDER_ID" }
  else if ¬ isValidUUID reminderId then
    .error { message := "Invalid reminder ID format",
             code := some "INVALID_REMINDER_ID_FORMAT" }
  else
    let updates := jsOr (params.get "updates") params
    if ¬ (truthy updates && isObjType updates) then
      .error { message := "Update data is required", code := some "MISSING_UPDATE_DATA" }
    else if truthy (updates.get "scheduledTime") && ! dateOk (updates.get "scheduledTime") then
      .error { message := "Invalid scheduled time format in updates",
               code := some "INVALID_SCHEDULED_TIME" }
    else
      .ok { actionMetadata :=
              .obj [("tool", .str "updateReminder"),
                    ("reminder_id", reminderId),
                    ("updates", updates)],
            contextItemId := reminderId,
            contextItemType := .str "reminder",
            updatedItemType := .str "reminder",
            actionIcon := .str "edit" }

/-- `executeUpdateReminder` from server.js (no identifier minting). -/
def executeUpdateReminder (dateOk : JVal → Bool) (gen : Gen) (params : JVal) :
    Except JsError Frag :=
  (executeUpdateReminderBody dateOk gen params).mapError (annot "updateReminder" params)

/-- Does an expense item pass the `item` checks of `executeTrackExpenses`
(`!expense.item || typeof expense.item !== 'string'` fails the batch)? -/
def validExpenseItem (e : JVal) : Bool :=
  truthy (e.get "item") && isStrB (e.get "item")

/-- Does an expense item pass the `amount` checks of `executeTrackExpenses`
(`!expense.amount || typeof expense.amount !== 'number' || expense.amount <= 0`)? -/
def validExpenseAmount (e : JVal) : Bool :=
  truthy (e.get "amount") && isNumB (e.get "amount") && decide (0 < numOf (e.get "amount"))

/-- The validated copy of one expense:
`{...expense, item: expense.item.trim(), expense_id: expenseId}`. -/
def spreadExpense (e : JVal) (id : String) : JVal :=
  match e with
  | .obj fs =>
      .obj (setKey (setKey fs "item" (trimVal (JVal.get (.obj fs) "item"))) "expense_id" (.str id))
  | v => v

/-- The validation loop of `executeTrackExpenses`: the i-th expense is
validated, then receives the i-th generator output as its identifier; the
first failure aborts the whole loop. -/
def validateExpenses (gen : Gen) : Nat → List JVal → Except JsError (List JVal)
  | _, [] => .ok []
  | i, e :: rest =>
      if ¬ validExpenseItem e then
        .error { message := s! "Expense {i + 1}: Item name is required and must be a string",
                 code := some "INVALID_EXPENSE_ITEM" }
      else if ¬ validExpenseAmount e then
        .error { message := s! "Expense {i + 1}: Amount must be a positive number",
                 code := some "INVALID_EXPENSE_AMOUNT" }
      else
        match gen i with
        | .error err => .error err
        | .ok id =>
            if ¬ uuidRegexTest id then
              .error { message := s! "Generated expense ID {i + 1} is invalid",
                       code := some "INVALID_EXPENSE_ID" }
            else
              match validateExpenses gen (i + 1) rest with
              | .error err => .error err
              | .ok tail => .ok (spreadExpense e id :: tail)

/-- The batch of expenses seen by `executeTrackExpenses`:
`Array.isArray(params.expenses) ? params.expenses : [params]`. -/
def expensesOf (params : JVal) : List JVal :=
  match params.get "expenses" with
  | .arr xs => xs
  | _ => [params]

/-- The running total: `reduce((sum, exp) => sum + exp.amount, 0)`. -/
def sumAmounts (es : List JVal) : ℚ :=
  es.foldl (fun sum exp => sum + numOf (exp.get "amount")) 0

/-- `executeTrackExpenses` body. -/
def executeTrackExpensesBody (gen : Gen) (params : JVal) : Except JsError Frag :=
  let expenses := expensesOf params
  if expenses.length = 0 then
    .error { message := "At least one expense is required", code := some "NO_EXPENSES_PROVIDED" }
  else
    match validateExpenses gen 0 expenses with
    | .error e => .error e
    | .ok validated =>
        .ok { actionMetadata :=
                .obj [("tool", .str "trackExpenses"),
                      ("expenses", .arr validated),
                      ("total_amount", .num (sumAmounts validated))],
              multipleActions :=
                .arr (validated.map (fun e =>
                  .obj [("type", .str "expense"),
                        ("id", e.get "expense_id"),
                        ("data", e)])),
              updatedItemType := .str "expense",
              actionIcon := .str "receipt" }

/-- `executeTrackExpenses` from server.js. -/
def executeTrackExpenses (gen : Gen) (params : JVal) : Except JsError Frag :=
  (executeTrackExpensesBody gen params).mapError (annot "trackExpenses" params)

/-- `executeCreateGoal` body. -/
def executeCreateGoalBody (gen : Gen) (params : JVal) : Except JsError Frag :=
  if ¬ (truthy (params.get "title") && isStrB (params.get "title")) then
    .error { message := "Goal title is required and must be a string",
             code := some "INVALID_PARAMETERS" }
  else if ! isUndefined (params.get "target") &&
      (! isNumB (params.get "target") || decide (numOf (params.get "target") ≤ 0)) then
    .error { message := "Goal target must be a positive number",
             code := some "INVALID_GOAL_TARGET" }
  else if ! isUndefined (params.get "progress") &&
      (! isNumB (params.get "progress") || decide (numOf (params.get "progress") < 0)) then
    .error { message := "Goal progress must be a non-negative number",
             code := some "INVALID_GOAL_PROGRESS" }
  else
    match gen 0 with
    | .error e => .error e
    | .ok goalId =>
        if ¬ uuidRegexTest goalId then
          .error { message := "Generated goal ID is invalid", code := some "INVALID_GOAL_ID" }
        else
          .ok { actionMetadata :=
                  .obj [("tool", .str "createGoal"),
                        ("title", trimVal (params.get "title")),
                        ("description",
                          if truthy (params.get "description") then
                            trimVal (params.get "description")
                          else .null),
                        ("target", params.get "target"),
                        ("progress", jsOr (params.get "progress") (.num 0)),
                        ("goal_id", .str goalId)],
                contextItemId := .str goalId,
                contextItemType := .str "goal",
                updatedItemType := .str "goal",
                actionIcon := .str "flag" }

/-- `executeCreateGoal` from server.js. -/
def executeCreateGoal (gen : Gen) (params : JVal) : Except JsError Frag :=
  (executeCreateGoalBody gen params).mapError (annot "createGoal" params)

/-- `executeUpdateGoal` body. -/
def executeUpdateGoalBody (gen : Gen) (params : JVal) : Except JsError Frag :=
  let goalId := jsOr (params.get "goalId") (params.get "id")
  if ¬ (truthy goalId && isStrB goalId) then
    .error { message := "Goal ID is required for updates", code := some "MISSING_GOAL_ID" }
  else if ¬ isValidUUID goalId then
    .error { message := "Invalid goal ID format", code := some "INVALID_GOAL_ID_FORMAT" }
  else
    let updates := jsOr (params.get "updates") params
    if ¬ (truthy updates && isObjType updates) then
      .error { message := "Update data is required", code := some "MISSING_UPDATE_DATA" }
    else if ! isUndefined (updates.get "target") &&
        (! isNumB (updates.get "target") || decide (numOf (updates.get "target") ≤ 0)) then
      .error { message := "Goal target must be a positive number",
               code := some "INVALID_GOAL_TARGET" }
    else if ! isUndefined (updates.get "progress") &&
        (! isNumB (updates.get "progress") || decide (numOf (updates.get "progress") < 0)) then
      .error { message := "Goal progress must be a non-negative number",
               code := some "INVALID_GOAL_PROGRESS" }
    else
      .ok { actionMetadata :=
              .obj [("tool", .str "updateGoal"),
                    ("goal_id", goalId),
                    ("updates", updates)],
            contextItemId := goalId,
            contextItemType := .str "goal",
            updatedItemType := .str "goal",
            actionIcon := .str "edit" }

/-- `executeUpdateGoal` from server.js (no identifier minting). -/
def executeUpdateGoal (gen : Gen) (params : JVal) : Except JsError Frag :=
  (executeUpdateGoalBody gen params).mapError (annot "updateGoal" params)

/-- `executeCreateJournalEntry` body. -/
def executeCreateJournalEntryBody (gen : Gen) (params : JVal) : Except JsError Frag :=
  if ¬ (truthy (params.get "content") && isStrB (params.get "content")) then
    .error { message := "Journal entry content is required and must be a string",
             code := some "INVALID_PARAMETERS" }
  else if truthy (params.get "mood") && ! isStrB (params.get "mood") then
    .error { message := "Journal entry mood must be a string",
             code := some "INVALID_MOOD_FORMAT" }
  else
    match gen 0 with
    | .error e => .error e
    | .ok entryId =>
        if ¬ uuidRegexTest entryId then
          .error { message := "Generated journal entry ID is invalid",
                   code := some "INVALID_ENTRY_ID" }
        else
          .ok { actionMetadata :=
                  .obj [("tool", .str "createJournalEntry"),
                        ("content", trimVal (params.get "content")),
                        ("mood",
                          if truthy (params.get "mood") then trimVal (params.get "mood")
                          else .null),
                        ("entry_id", .str entryId)],
                contextItemId := .str entryId,
                contextItemType := .str "journal",
                updatedItemType := .str "journal",
                actionIcon := .str "book" }

/-- `executeCreateJournalEntry` from server.js. -/
def executeCreateJournalEntry (gen : Gen) (params : JVal) : Except JsError Frag :=
  (executeCreateJournalEntryBody gen params).mapError (annot "createJournalEntry" params)

/-- `executeGeneralChat` from server.js (its body cannot throw). -/
def executeGeneralChat (params : JVal) : Except JsError Frag :=
  let tone := jsOr (params.get "tone") (.str "neutral")
  let response := jsOr (params.get "response") (.str "")
  .ok { actionMetadata :=
          .obj [("tool", .str "generalChat"),
                ("tone", tone),
                ("response", response)],
        actionIcon := .str "chat" }

/-- Rough JS stringification, used only inside the unknown-tool message. -/
def jsDisplay : JVal → String
  | .str s => s
  | .num q => toString q
  | .bool b => if b then "true" else "false"
  | .null => "null"
  | .undefined => "undefined"
  | .arr _ => ""
  | .obj _ => "[object Object]"

/-- The switch of `executeToolIfNeeded`: dispatch on the tool name; an
unrecognised name throws `UNKNOWN_TOOL`. -/
def dispatchTool (dateOk : JVal → Bool) (gen : Gen) (toolName toolParams : JVal) :
    Except JsError Frag :=
  match toolName with
  | .str "createTask" => executeCreateTask gen toolParams
  | .str "updateTask" => executeUpdateTask gen toolParams
  | .str "createReminder" => executeCreateReminder dateOk gen toolParams
  | .str "updateReminder" => executeUpdateReminder dateOk gen toolParams
  | .str "trackExpenses" => executeTrackExpenses gen toolParams
  | .str "createGoal" => executeCreateGoal gen toolParams
  | .str "updateGoal" => executeUpdateGoal gen toolParams
  | .str "createJournalEntry" => executeCreateJournalEntry gen toolParams
  | .str "generalChat" => executeGeneralChat toolParams
  | t => .error { message := s! "Unknown tool: {jsDisplay t}", code := some "UNKNOWN_TOOL" }

/-- `executeToolIfNeeded` from server.js: resolve the tool name and the
parameters through their aliases, silently skip when either is missing, and
catch every executor failure, turning it into a structural
`{errorDetails: ...}` fragment. -/
def executeToolIfNeeded (dateOk : JVal → Bool) (gen : Gen) (now : String)
    (parsed : JVal) : Frag :=
  let toolName := jsOr (parsed.get "tool") (parsed.get "selectedTool")
  let toolParams := jsOr (parsed.get "toolParams") (parsed.get "parameters")
  if ¬ truthy toolName then {}
  else if ¬ truthy toolParams then {}
  else
    match dispatchTool dateOk gen toolName toolParams with
    | .ok r => r
    | .error e => { errorDetails := createToolErrorResponse toolName e toolParams now }

/-- The structured result of `parseAIResponse`. -/
structure ParsedResponse where
  aiResponseText : JVal
  actionMetadata : JVal
  contextItemId : JVal
  contextItemType : JVal
  updatedItemType : JVal
  actionIcon : JVal
  multipleActions : JVal
  errorDetails : JVal

/-- The merged record built by `parseAIResponse` on a successful decode.
Note that `errorDetails` is taken from the parsed model envelope only
(`parsed.errorDetails || null` in the source), not from the tool result. -/
def mergeParsed (frag : Frag) (parsed : JVal) (aiMessage : String) : ParsedResponse :=
  { aiResponseText := jsOr (parsed.get "aiResponseText") (.str aiMessage),
    actionMetadata := jsOr (jsOr frag.actionMetadata (parsed.get "actionMetadata")) .null,
    contextItemId := jsOr (jsOr frag.contextItemId (parsed.get "contextItemId")) .null,
    contextItemType := jsOr (jsOr frag.contextItemType (parsed.get "contextItemType")) .null,
    updatedItemType := jsOr (jsOr frag.updatedItemType (parsed.get "updatedItemType")) .null,
    actionIcon := jsOr (jsOr frag.actionIcon (parsed.get "actionIcon")) .null,
    multipleActions := jsOr (jsOr frag.multipleActions (parsed.get "multipleActions")) .null,
    errorDetails := jsOr (parsed.get "errorDetails") .null }

/-- The plain-text degrade of `parseAIResponse`. -/
def fallbackResp (aiMessage : String) : ParsedResponse :=
  { aiResponseText := .str aiMessage,
    actionMetadata := .null, contextItemId := .null, contextItemType := .null,
    updatedItemType := .null, actionIcon := .null, multipleActions := .null,
    errorDetails := .null }

/-- Index of the first matching character. -/
def firstIdxAux (p : Char → Bool) : List Char → Option Nat
  | [] => none
  | c :: rest => if p c then some 0 else (firstIdxAux p rest).map (· + 1)

/-- Index of the last matching character. -/
def lastIdxAux (p : Char → Bool) : List Char → Option Nat
  | [] => none
  | c :: rest =>
      match lastIdxAux p rest with
      | some k => some (k + 1)
      | none => if p c then some 0 else none

/-- The span matched by the greedy regex `/\x7b[\s\S]*\x7d/`: from the
first opening brace through the last closing brace, provided the closing
brace comes strictly later. -/
def extractBraceSpan (s : String) : Option String :=
  match firstIdxAux (· == lbraceChar) s.data, lastIdxAux (· == rbraceChar) s.data with
  | some i, some j =>
      if i < j then some (String.mk ((s.data.take (j + 1)).drop i)) else none
  | _, _ => none

/-- `parseAIResponse` from server.js.  `decode` models `JSON.parse` on the
extracted span (`.error` when it throws). -/
def parseAIResponse (dateOk : JVal → Bool) (decode : String → Except String JVal)
    (gen : Gen) (now : String) (aiMessage : String) : ParsedResponse :=
  match extractBraceSpan aiMessage with
  | none => fallbackResp aiMessage
  | some span =>
      match decode span with
      | .error _ => fallbackResp aiMessage
      | .ok parsed => mergeParsed (executeToolIfNeeded dateOk gen now parsed) parsed aiMessage

/-- The try block of `parseAIResponse` before its catch: `.ok none` when the
regex found no span (the code then falls through to the plain-text result),
`.error` when `JSON.parse` threw. -/
def parseAIResponseTry (dateOk : JVal → Bool) (decode : String → Except String JVal)
    (gen : Gen) (now : String) (aiMessage : String) : Except String (Option ParsedResponse) :=
  match extractBraceSpan aiMessage with
  | some span =>
      (decode span).map (fun parsed =>
        some (mergeParsed (executeToolIfNeeded dateOk gen now parsed) parsed aiMessage))
  | none => .ok none

/-- `parseAIResponse` with its try/catch made explicit: the catch and the
fall-through both produce the plain-text degrade, so the function as a whole
never throws. -/
def parseAIResponseE (dateOk : JVal → Bool) (decode : String → Except String JVal)
    (gen : Gen) (now : String) (aiMessage : String) : Except String ParsedResponse :=
  match parseAIResponseTry dateOk decode gen now aiMessage with
  | .ok (some r) => .ok r
  | .ok none => .ok (fallbackResp aiMessage)
  | .error _ => .ok (fallbackResp aiMessage)

/-- `isIdentityQuestion` from server.js: case-insensitive substring match
against the fixed creator/origin phrases. -/
def isIdentityQuestion (input : String) : Bool :=
  if input == "" then false
  else
    let lower := String.mk (input.data.map Char.toLower)
    strContains lower "who made you" ||
    strContains lower "who created you" ||
    strContains lower "your creator" ||
    strContains lower "who built you" ||
    strContains lower "origin" ||
    strContains lower "where are you from"

/-- The fixed identity short-circuit response body (lines 370-379). -/
def identityBody : JVal :=
  .obj [("aiResponseText", .str "I was built with care by some awesome humans, led by Aakash."),
        ("actionMetadata", .null),
        ("contextItemId", .null),
        ("contextItemType", .null),
        ("updatedItemType", .null),
        ("actionIcon", .str "info"),
        ("multipleActions", .null),
        ("errorDetails", .null)]

/-- An HTTP response: status code and JSON body. -/
structure HttpResp where
  status : Nat
  body : JVal

/-- The success response body of the chat handler: the parsed-response
fields copied verbatim. -/
def respBodyOf (pr : ParsedResponse) : JVal :=
  .obj [("aiResponseText", pr.aiResponseText),
        ("actionMetadata", pr.actionMetadata),
        ("contextItemId", pr.contextItemId),
        ("contextItemType", pr.contextItemType),
        ("updatedItemType", pr.updatedItemType),
        ("actionIcon", pr.actionIcon),
        ("multipleActions", pr.multipleActions),
        ("errorDetails", pr.errorDetails)]

/-- The catch block of the chat handler (lines 423-474): classify the
upstream failure by HTTP status or network error code, then build the
error envelope (production mode, so `details` is the generic string). -/
def classifyUpstream (e : JsError) (now : String) : HttpResp :=
  let statusIs400s : Bool := match e.responseStatus with
                             | some st => decide (400 ≤ st) && decide (st < 500)
                             | none => false
  let pick : String × Nat × Bool :=
    if e.responseStatus = some 401 then
      ("Authentication error. Please contact support.", 401, false)
    else if e.responseStatus = some 429 then
      ("Service is temporarily busy. Please try again in a moment.", 429, true)
    else if statusIs400s then
      ("Invalid request. Please try rephrasing your message.", 400, false)
    else if e.code = some "ECONNREFUSED" ∨ e.code = some "ENOTFOUND" then
      ("Unable to connect to AI service. Please try again later.", 503, true)
    else
      ("Sorry, I encountered an error processing your request. Please try again.", 500, true)
  let errorCode : JVal :=
    jsOr (match e.responseStatus with
          | some st => .num st
          | none => .undefined)
      (jsOr (match e.code with
             | some c => .str c
             | none => .undefined) (.str "UNKNOWN_ERROR"))
  { status := pick.2.1,
    body := .obj [("error", .str "AI API error"),
                  ("details", .str "Internal server error"),
                  ("aiResponseText", .str pick.1),
                  ("actionMetadata", .null),
                  ("contextItemId", .null),
                  ("contextItemType", .null),
                  ("updatedItemType", .null),
                  ("actionIcon", .str "error"),
                  ("errorDetails",
                    .obj [("retryable", .bool pick.2.2),
                          ("errorCode", errorCode),
                          ("timestamp", .str now),
                          ("suggestedAction",
                            .str (if pick.2.2 then "Please try again"
                                  else "Please contact support if the issue persists"))])] }

/-- The `POST /api/v1/chat` handler (lines 353-476).  `upstream` models the
completion call, taking the system prompt value and the chat input and
returning `response.data` or a thrown/HTTP failure; `buildPrompt` models
the pure `buildBasicPrompt` construction, whose text none of the claims
inspect.  A top-level `.error` models a synchronous throw escaping the
handler (only reachable with a truthy non-string `chatInput`, a TypeError
raised before the try block in JS); a truthy non-string upstream message
content also raises a TypeError, but inside the try block, so it is caught
and classified like any other upstream failure. -/
def chatHandler (upstream : JVal → JVal → Except JsError JVal)
    (buildPrompt : JVal → JVal → JVal → JVal → JVal → String)
    (dateOk : JVal → Bool) (decode : String → Except String JVal)
    (gen : Gen) (now : String) (body : JVal) : Except JsError HttpResp :=
  let chatInput := body.get "chatInput"
  if ¬ truthy chatInput then
    .ok { status := 400, body := .obj [("error", .str "Missing chatInput in request body")] }
  else
    match chatInput with
    | .str s =>
        if isIdentityQuestion s then .ok { status := 200, body := identityBody }
        else
          let systemPrompt :=
            jsOr (body.get "masterPrompt")
              (.str (buildPrompt chatInput (body.get "chatHistory") (body.get "contextItem")
                (body.get "currentDate") (body.get "tone")))
          match upstream systemPrompt chatInput with
          | .error e => .ok (classifyUpstream e now)
          | .ok data =>
              let aiMessage := jsOr ((((data.get "choices").idx 0).get "message").get "content")
                (.str "")
              match aiMessage with
              | .str m =>
                  .ok { status := 200,
                        body := respBodyOf (parseAIResponse dateOk decode gen now m) }
              | _ => .ok (classifyUpstream { message := "aiMessage.match is not a function" } now)
    | _ => .error { message := "chatInput.toLowerCase is not a function" }

/-! ## Helper lemmas about the UUID format test -/

theorem uuidTest_all {s : String} (h : uuidRegexTest s = true) :
    s.data.length = 36 ∧ ∀ i, i < 36 → charOkUUID i (s.data.getD i ' ') = true := by
  unfold uuidRegexTest at h
  rw [Bool.and_eq_true] at h
  obtain ⟨h1, h2⟩ := h
  refine ⟨by simpa using h1, fun i hi => ?_⟩
  exact List.all_eq_true.mp h2 i (List.mem_range.mpr hi)

theorem charOk_hyphen {i : Nat} {c : Char} (hi : i = 8 ∨ i = 13 ∨ i = 18 ∨ i = 23)
    (h : charOkUUID i c = true) : c = '-' := by
  unfold charOkUUID at h
  rw [if_pos hi] at h
  exact eq_of_beq h

theorem charOk_version {c : Char} (h : charOkUUID 14 c = true) : c = '4' := by
  unfold charOkUUID at h
  rw [if_neg (by decide), if_pos rfl] at h
  exact eq_of_beq h

theorem charOk_variant {c : Char} (h : charOkUUID 19 c = true) :
    c.toLower ∈ (['8', '9', 'a', 'b'] : List Char) := by
  unfold charOkUUID at h
  rw [if_neg (by decide), if_neg (by decide), if_pos rfl] at h
  unfold variantChar at h
  simp only [Bool.or_eq_true, beq_iff_eq] at h
  rcases h with ((((rfl | rfl) | rfl) | rfl) | rfl) | rfl <;> decide

theorem charOk_hex {i : Nat} {c : Char} (h8 : i ≠ 8) (h13 : i ≠ 13) (h18 : i ≠ 18)
    (h23 : i ≠ 23) (h14 : i ≠ 14) (h19 : i ≠ 19) (h : charOkUUID i c = true) :
    hexChar c = true := by
  unfold charOkUUID at h
  rw [if_neg (by push_neg; exact ⟨h8, h13, h18, h23⟩), if_neg h14, if_neg h19] at h
  exact h

/-! ## Helper lemmas about the generator tiers -/

theorem cryptoAttempt_ok {c : Except String (List Nat)} {u : String}
    (h : cryptoAttempt c = .ok u) : uuidRegexTest u = true := by
  unfold cryptoAttempt at h
  cases c with
  | ok bytes =>
      simp only at h
      split at h
      · cases h; assumption
      · cases h
  | error m => cases h

theorem mathAttempt_ok {m : Except String (Nat → Nat)} {u : String}
    (h : mathAttempt m = .ok u) : uuidRegexTest u = true := by
  unfold mathAttempt at h
  cases m with
  | ok rand =>
      simp only at h
      split at h
      · cases h; assumption
      · cases h
  | error msg => cases h

theorem generateFallbackUUID_ok {c : Except String (List Nat)}
    {m : Except String (Nat → Nat)} {now u : String}
    (h : generateFallbackUUID c m now = .ok u) : uuidRegexTest u = true := by
  unfold generateFallbackUUID at h
  cases hc : cryptoAttempt c with
  | ok v => rw [hc] at h; cases h; exact cryptoAttempt_ok hc
  | error cmsg =>
      rw [hc] at h
      cases hm : mathAttempt m with
      | ok v => rw [hm] at h; cases h; exact mathAttempt_ok hm
      | error mmsg => rw [hm] at h; cases h

theorem fallbackEscalate_ok {p : String} {c : Except String (List Nat)}
    {m : Except String (Nat → Nat)} {now u : String}
    (h : fallbackEscalate p c m now = .ok u) : uuidRegexTest u = true := by
  unfold fallbackEscalate at h
  cases hf : generateFallbackUUID c m now with
  | ok v => rw [hf] at h; cases h; exact generateFallbackUUID_ok hf
  | error e => rw [hf] at h; cases h

theorem generateUUID_ok {libUuid : Except String String} {c : Except String (List Nat)}
    {m : Except String (Nat → Nat)} {now u : String}
    (h : generateUUID libUuid c m now = .ok u) : uuidRegexTest u = true := by
  unfold generateUUID at h
  cases libUuid with
  | ok v =>
      simp only at h
      split at h
      · cases h; assumption
      · exact fallbackEscalate_ok h
  | error msg => exact fallbackEscalate_ok h

/-! ## Claim C4 -/

/-- C4: every identifier returned by the generator, from any of its three
tiers, matches the canonical UUID v4 format (36 characters, hyphens at
positions 8/13/18/23, version nibble 4, variant nibble in 8/9/a/b) and
passes the format validator; a tier 1 value that fails validation is never
returned, the generator instead escalates into the fallback chain. -/
theorem C4_generator_output_format (libUuid : Except String String)
    (cryptoBytes : Except String (List Nat)) (mathTier : Except String (Nat → Nat))
    (now s : String) (h : generateUUID libUuid cryptoBytes mathTier now = .ok s) :
    uuidRegexTest s = true ∧
    s.data.length = 36 ∧
    s.data.getD 8 ' ' = '-' ∧ s.data.getD 13 ' ' = '-' ∧
    s.data.getD 18 ' ' = '-' ∧ s.data.getD 23 ' ' = '-' ∧
    s.data.getD 14 ' ' = '4' ∧
    (s.data.getD 19 ' ').toLower ∈ (['8', '9', 'a', 'b'] : List Char) ∧
    (∀ i, i < 36 → i ≠ 8 → i ≠ 13 → i ≠ 18 → i ≠ 23 → i ≠ 14 → i ≠ 19 →
      hexChar (s.data.getD i ' ') = true) ∧
    (∀ u, libUuid = .ok u → uuidRegexTest u = false →
      generateUUID libUuid cryptoBytes mathTier now =
        fallbackEscalate "Generated UUID does not match v4 format" cryptoBytes mathTier now) := by
  have htest := generateUUID_ok h
  obtain ⟨hlen, hall⟩ := uuidTest_all htest
  refine ⟨htest, hlen,
    charOk_hyphen (Or.inl rfl) (hall 8 (by decide)),
    charOk_hyphen (Or.inr (Or.inl rfl)) (hall 13 (by decide)),
    charOk_hyphen (Or.inr (Or.inr (Or.inl rfl))) (hall 18 (by decide)),
    charOk_hyphen (Or.inr (Or.inr (Or.inr rfl))) (hall 23 (by decide)),
    charOk_version (hall 14 (by decide)),
    charOk_variant (hall 19 (by decide)),
    fun i hi h8 h13 h18 h23 h14 h19 =>
      charOk_hex h8 h13 h18 h23 h14 h19 (hall i hi),
    fun u hu hbad => ?_⟩
  subst hu
  unfold generateUUID
  simp only [hbad]
  rfl

/-- C4 witness: the generator applied to a concrete valid tier 1 value
returns it, and the theorem then yields its format facts. -/
theorem C4_generator_output_format_witness :
    uuidRegexTest "1f2e3d4c-5b6a-4987-89ab-0123456789ab" = true ∧
    ("1f2e3d4c-5b6a-4987-89ab-0123456789ab".data.length = 36) := by
  have h := C4_generator_output_format (.ok "1f2e3d4c-5b6a-4987-89ab-0123456789ab")
    (.error "crypto unavailable") (.error "math unavailable") "2024-01-01T00:00:00Z"
    "1f2e3d4c-5b6a-4987-89ab-0123456789ab" rfl
  exact ⟨h.1, h.2.1⟩

/-! ## Claim C5 -/

theorem generateFallbackUUID_error {c : Except String (List Nat)}
    {m : Except String (Nat → Nat)} {now : String} {fe : JsError}
    (h : generateFallbackUUID c m now = .error fe) :
    (∀ u, cryptoAttempt c ≠ .ok u) ∧ (∀ u, mathAttempt m ≠ .ok u) ∧
    fe.message = "All UUID fallback methods failed" := by
  unfold generateFallbackUUID at h
  cases hc : cryptoAttempt c with
  | ok v => rw [hc] at h; cases h
  | error cmsg =>
      rw [hc] at h
      cases hm : mathAttempt m with
      | ok v => rw [hm] at h; cases h
      | error mmsg =>
          rw [hm] at h
          cases h
          exact ⟨fun u hu => (by simp [hc] at hu),
                 fun u hu => (by simp [hm] at hu), rfl⟩

theorem fallbackEscalate_error {p : String} {c : Except String (List Nat)}
    {m : Except String (Nat → Nat)} {now : String} {e : JsError}
    (h : fallbackEscalate p c m now = .error e) :
    (∀ u, cryptoAttempt c ≠ .ok u) ∧ (∀ u, mathAttempt m ≠ .ok u) ∧
    e = { message := "UUID generation system failure",
          code := some "UUID_GENERATION_FAILURE",
          primaryError := some p,
          fallbackError := some "All UUID fallback methods failed",
          timestamp := some now } := by
  unfold fallbackEscalate at h
  cases hf : generateFallbackUUID c m now with
  | ok v => rw [hf] at h; cases h
  | error fe =>
      rw [hf] at h
      obtain ⟨hc, hm, hmsg⟩ := generateFallbackUUID_error hf
      cases h
      exact ⟨hc, hm, by rw [hmsg]⟩

/-- The exact error produced when all three tiers fail with tier 2 message
`crypto-down` and tier 3 message `math-down`. -/
def c5Err : JsError :=
  { message := "UUID generation system failure",
    code := some "UUID_GENERATION_FAILURE",
    primaryError := some "Generated UUID does not match v4 format",
    fallbackError := some "All UUID fallback methods failed",
    timestamp := some "2024-02-02T00:00:00Z" }

/-- C5 counterexample: when all three tiers fail, the surfaced
`UUID_GENERATION_FAILURE` error does not carry the error message of tier 2
(`crypto-down`) or tier 3 (`math-down`) in any field: it carries only the
tier 1 message as `primaryError` and the generic sentence
`All UUID fallback methods failed` as `fallbackError` (the per-tier
messages live on the inner error object, whose fields are discarded).  The
claim that the failure carries the error message from every tier attempted
is therefore false. -/
theorem C5_counterexample :
    generateUUID (.ok "bad") (.error "crypto-down") (.error "math-down")
      "2024-02-02T00:00:00Z" = .error c5Err ∧
    c5Err.cryptoError = none ∧ c5Err.mathError = none ∧
    c5Err.primaryError ≠ some "crypto-down" ∧ c5Err.fallbackError ≠ some "crypto-down" ∧
    c5Err.primaryError ≠ some "math-down" ∧ c5Err.fallbackError ≠ some "math-down" ∧
    c5Err.message ≠ "crypto-down" ∧ c5Err.message ≠ "math-down" :=
  ⟨rfl, rfl, rfl, by decide, by decide, by decide, by decide, by decide, by decide⟩

/-- C5 (amended): the generator fails only when all three tiers have been
tried and failed; the resulting failure has code `UUID_GENERATION_FAILURE`,
carries a timestamp, the tier 1 error message as `primaryError` and the
generic fallback-chain message as `fallbackError` (the tier 2 and tier 3
messages are only logged, not carried), and is classified as retryable by
the error classifier. -/
theorem C5_failure_contents (libUuid : Except String String)
    (cryptoBytes : Except String (List Nat)) (mathTier : Except String (Nat → Nat))
    (now : String) (e : JsError)
    (h : generateUUID libUuid cryptoBytes mathTier now = .error e) :
    (∀ u, libUuid = .ok u → uuidRegexTest u = false) ∧
    (∀ u, cryptoAttempt cryptoBytes ≠ .ok u) ∧
    (∀ u, mathAttempt mathTier ≠ .ok u) ∧
    e.message = "UUID generation system failure" ∧
    e.code = some "UUID_GENERATION_FAILURE" ∧
    e.timestamp = some now ∧
    e.fallbackError = some "All UUID fallback methods failed" ∧
    (∀ u, libUuid = .ok u → e.primaryError = some "Generated UUID does not match v4 format") ∧
    (∀ msg, libUuid = .error msg → e.primaryError = some msg) ∧
    isRetryableError e = true := by
  unfold generateUUID at h
  cases libUuid with
  | ok v =>
      simp only at h
      by_cases hv : uuidRegexTest v = true
      · rw [if_pos hv] at h; cases h
      · rw [if_neg hv] at h
        obtain ⟨hc, hm, he⟩ := fallbackEscalate_error h
        subst he
        refine ⟨fun u hu => (by cases hu; exact Bool.eq_false_iff.mpr hv),
          hc, hm, rfl, rfl, rfl, rfl, fun u hu => rfl,
          fun msg hmsg => (by cases hmsg), rfl⟩
  | error m =>
      obtain ⟨hc, hm, he⟩ := fallbackEscalate_error h
      subst he
      refine ⟨fun u hu => (by cases hu), hc, hm, rfl, rfl, rfl, rfl,
        fun u hu => (by cases hu), fun msg hmsg => (by cases hmsg; rfl), rfl⟩

/-- C5 witness: the amended theorem applied at a concrete full failure. -/
theorem C5_failure_contents_witness :
    (∀ u, mathAttempt (.error "no math source" : Except String (Nat → Nat)) ≠ .ok u) ∧
    isRetryableError
      { message := "UUID generation system failure",
        code := some "UUID_GENERATION_FAILURE",
        primaryError := some "uuidv4 threw",
        fallbackError := some "All UUID fallback methods failed",
        timestamp := some "2024-03-03T00:00:00Z" } = true := by
  have h := C5_failure_contents (.error "uuidv4 threw") (.error "no crypto source")
    (.error "no math source") "2024-03-03T00:00:00Z"
    { message := "UUID generation system failure",
      code := some "UUID_GENERATION_FAILURE",
      primaryError := some "uuidv4 threw",
      fallbackError := some "All UUID fallback methods failed",
      timestamp := some "2024-03-03T00:00:00Z" } rfl
  exact ⟨h.2.2.1, h.2.2.2.2.2.2.2.2.2⟩

/-! ## Concrete collaborators shared by witnesses -/

/-- A generator supply whose calls all fail (never consulted in the places
it is used). -/
def genUnused : Gen := fun _ => .error { message := "unused generator" }

/-- A generator supply returning one fixed valid identifier. -/
def genConst : Gen := fun _ => .ok "1f2e3d4c-5b6a-4987-89ab-0123456789ab"

/-- A date parser accepting everything. -/
def dateOkAll : JVal → Bool := fun _ => true

/-- A decoder returning one fixed parsed envelope. -/
def decodeTo (v : JVal) : String → Except String JVal := fun _ => .ok v

/-- A decoder that always throws. -/
def decodeFail : String → Except String JVal := fun _ => .error "Unexpected token"

/-! ## Claim C8 -/

/-- C8 counterexample: the empty string fails the identifier format
validator, yet `updateTask` with `taskId` equal to the empty string fails
with `MISSING_TASK_ID`, not `INVALID_TASK_ID_FORMAT`, because the falsy
`taskId` is caught by the presence check first.  The claim as stated (any
validator-failing `taskId` yields `INVALID_TASK_ID_FORMAT`) is therefore
false. -/
theorem C8_counterexample :
    executeUpdateTask genUnused (.obj [("taskId", .str ""), ("updates", .obj [])]) =
      .error { message := "Task ID is required for updates",
               code := some "MISSING_TASK_ID",
               tool := some "updateTask",
               params := some (.obj [("taskId", .str ""), ("updates", .obj [])]) } ∧
    uuidRegexTest "" = false ∧
    some "MISSING_TASK_ID" ≠ some "INVALID_TASK_ID_FORMAT" :=
  ⟨rfl, rfl, by decide⟩

/-- C8 (amended): for every updates content, calling `updateTask` with a
`taskId` that is a non-empty string failing the identifier format validator
fails with `INVALID_TASK_ID_FORMAT`, and no identifier is minted (the
result does not depend on the generator supply); a falsy or non-string
`taskId` instead fails earlier with `MISSING_TASK_ID`. -/
theorem C8_invalid_id_format (gen : Gen) (params : JVal) (s : String)
    (hid : params.get "taskId" = .str s) (hne : s ≠ "")
    (hbad : uuidRegexTest s = false) :
    executeUpdateTask gen params =
      .error { message := "Invalid task ID format",
               code := some "INVALID_TASK_ID_FORMAT",
               tool := some "updateTask", params := some params } ∧
    (∀ gen2 : Gen, executeUpdateTask gen2 params = executeUpdateTask gen params) := by
  have htr : truthy (JVal.str s) = true := by simp [truthy, hne]
  constructor
  · unfold executeUpdateTask executeUpdateTaskBody
    rw [hid]
    simp [jsOr, htr, isStrB, isValidUUID, hbad, Except.mapError, annot]
  · intro gen2
    rfl

/-- C8 witness: the amended theorem applied at a malformed non-empty id. -/
theorem C8_invalid_id_format_witness :
    executeUpdateTask genUnused (.obj [("taskId", .str "not-a-uuid"), ("updates", .obj [("done", .bool true)])]) =
      .error { message := "Invalid task ID format",
               code := some "INVALID_TASK_ID_FORMAT",
               tool := some "updateTask",
               params := some (.obj [("taskId", .str "not-a-uuid"), ("updates", .obj [("done", .bool true)])]) } := by
  have h := C8_invalid_id_format genUnused
    (.obj [("taskId", .str "not-a-uuid"), ("updates", .obj [("done", .bool true)])])
    "not-a-uuid" rfl (by decide) (by decide)
  exact h.1

/-! ## Claim C10 -/

theorem uuidTest_ne_empty {s : String} (h : uuidRegexTest s = true) : s ≠ "" := by
  intro hs
  subst hs
  cases h

theorem truthy_str_of_ne {s : String} (h : s ≠ "") : truthy (.str s) = true := by
  simp [truthy, h]

theorem obj_of_isStr_id {p : JVal} {key alt : String}
    (h : isStrB (jsOr (p.get key) (p.get alt)) = true) : ∃ gs, p = .obj gs := by
  cases p with
  | obj gs => exact ⟨gs, rfl⟩
  | undefined => simp [JVal.get, jsOr, truthy, isStrB] at h
  | null => simp [JVal.get, jsOr, truthy, isStrB] at h
  | bool b => simp [JVal.get, jsOr, truthy, isStrB] at h
  | num q => simp [JVal.get, jsOr, truthy, isStrB] at h
  | str s => simp [JVal.get, jsOr, truthy, isStrB] at h
  | arr xs => simp [JVal.get, jsOr, truthy, isStrB] at h

/-- In any of the three update executors, the `MISSING_UPDATE_DATA` branch
is reached only when the params object carries a truthy, non-object
`updates` field (otherwise the params object itself, which is truthy and
object-typed, is used as the updates payload). -/
theorem updateTaskBody_mud {gen : Gen} {params : JVal} {e0 : JsError}
    (hb : executeUpdateTaskBody gen params = .error e0)
    (hc : e0.code = some "MISSING_UPDATE_DATA") :
    truthy (params.get "updates") = true ∧ isObjType (params.get "updates") = false := by
  unfold executeUpdateTaskBody at hb
  dsimp only [] at hb
  by_cases h1 : (truthy (jsOr (params.get "taskId") (params.get "id")) &&
      isStrB (jsOr (params.get "taskId") (params.get "id"))) = true
  · rw [if_neg (not_not_intro h1)] at hb
    by_cases h2 : isValidUUID (jsOr (params.get "taskId") (params.get "id")) = true
    · rw [if_neg (not_not_intro h2)] at hb
      by_cases h3 : (truthy (jsOr (params.get "updates") params) &&
          isObjType (jsOr (params.get "updates") params)) = true
      · rw [if_neg (not_not_intro h3)] at hb
        cases hb
      · rw [if_pos h3] at hb
        cases hb
        obtain ⟨gs, hgs⟩ := obj_of_isStr_id ((Bool.and_eq_true _ _).mp h1).2
        subst hgs
        by_cases ht : truthy (JVal.get (.obj gs) "updates") = true
        · refine ⟨ht, ?_⟩
          rw [Bool.not_eq_true] at h3
          simp only [jsOr, ht] at h3
          simp at h3
          exact h3 ht
        · exfalso
          apply h3
          rw [Bool.not_eq_true] at ht
          simp only [jsOr, ht]
          simp [truthy, isObjType]
    · rw [if_pos h2] at hb
      cases hb
      simp at hc
  · rw [if_pos h1] at hb
    cases hb
    simp at hc

theorem truthy_obj (fs : List (String × JVal)) : truthy (.obj fs) = true := rfl

theorem isObjType_obj (fs : List (String × JVal)) : isObjType (.obj fs) = true := rfl

theorem isStrB_str (s : String) : isStrB (.str s) = true := rfl

theorem isValidUUID_str (s : String) : isValidUUID (.str s) = uuidRegexTest s := rfl

theorem jsOr_undefined (v : JVal) : jsOr .undefined v = v := rfl

theorem jsOr_of_truthy {a : JVal} (h : truthy a = true) (b : JVal) : jsOr a b = a := by
  unfold jsOr
  rw [h]
  rfl

theorem mapError_annot_error {t : String} {params : JVal} {r : Except JsError Frag}
    {e : JsError} (h : r.mapError (annot t params) = .error e) :
    ∃ e0, r = .error e0 ∧ e.code = e0.code ∧ e.message = e0.message := by
  cases r with
  | ok f => simp [Except.mapError] at h
  | error e0 =>
      simp only [Except.mapError] at h
      cases h
      exact ⟨e0, rfl, rfl, rfl⟩

theorem mapError_annot_ok {t : String} {params : JVal} {r : Except JsError Frag}
    {f : Frag} (h : r.mapError (annot t params) = .ok f) : r = .ok f := by
  cases r with
  | ok g => simpa [Except.mapError] using h
  | error e0 => simp [Except.mapError] at h

theorem updateReminderBody_mud {dateOk : JVal → Bool} {gen : Gen} {params : JVal}
    {e0 : JsError} (hb : executeUpdateReminderBody dateOk gen params = .error e0)
    (hc : e0.code = some "MISSING_UPDATE_DATA") :
    truthy (params.get "updates") = true ∧ isObjType (params.get "updates") = false := by
  unfold executeUpdateReminderBody at hb
  dsimp only [] at hb
  by_cases h1 : (truthy (jsOr (params.get "reminderId") (params.get "id")) &&
      isStrB (jsOr (params.get "reminderId") (params.get "id"))) = true
  · rw [if_neg (not_not_intro h1)] at hb
    by_cases h2 : isValidUUID (jsOr (params.get "reminderId") (params.get "id")) = true
    · rw [if_neg (not_not_intro h2)] at hb
      by_cases h3 : (truthy (jsOr (params.get "updates") params) &&
          isObjType (jsOr (params.get "updates") params)) = true
      · rw [if_neg (not_not_intro h3)] at hb
        by_cases h4 : (truthy ((jsOr (params.get "updates") params).get "scheduledTime") &&
            ! dateOk ((jsOr (params.get "updates") params).get "scheduledTime")) = true
        · rw [if_pos h4] at hb
          cases hb
          simp at hc
        · rw [if_neg h4] at hb
          cases hb
      · rw [if_pos h3] at hb
        cases hb
        obtain ⟨gs, hgs⟩ := obj_of_isStr_id ((Bool.and_eq_true _ _).mp h1).2
        subst hgs
        by_cases ht : truthy (JVal.get (.obj gs) "updates") = true
        · refine ⟨ht, ?_⟩
          rw [Bool.not_eq_true] at h3
          simp only [jsOr, ht] at h3
          simp at h3
          exact h3 ht
        · exfalso
          apply h3
          rw [Bool.not_eq_true] at ht
          simp only [jsOr, ht]
          simp [truthy, isObjType]
    · rw [if_pos h2] at hb
      cases hb
      simp at hc
  · rw [if_pos h1] at hb
    cases hb
    simp at hc

theorem updateGoalBody_mud {gen : Gen} {params : JVal} {e0 : JsError}
    (hb : executeUpdateGoalBody gen params = .error e0)
    (hc : e0.code = some "MISSING_UPDATE_DATA") :
    truthy (params.get "updates") = true ∧ isObjType (params.get "updates") = false := by
  unfold executeUpdateGoalBody at hb
  dsimp only [] at hb
  by_cases h1 : (truthy (jsOr (params.get "goalId") (params.get "id")) &&
      isStrB (jsOr (params.get "goalId") (params.get "id"))) = true
  · rw [if_neg (not_not_intro h1)] at hb
    by_cases h2 : isValidUUID (jsOr (params.get "goalId") (params.get "id")) = true
    · rw [if_neg (not_not_intro h2)] at hb
      by_cases h3 : (truthy (jsOr (params.get "updates") params) &&
          isObjType (jsOr (params.get "updates") params)) = true
      · rw [if_neg (not_not_intro h3)] at hb
        by_cases h4 : (! isUndefined ((jsOr (params.get "updates") params).get "target") &&
            (! isNumB ((jsOr (params.get "updates") params).get "target") ||
              decide (numOf ((jsOr (params.get "updates") params).get "target") ≤ 0))) = true
        · rw [if_pos h4] at hb
          cases hb
          simp at hc
        · rw [if_neg h4] at hb
          by_cases h5 : (! isUndefined ((jsOr (params.get "updates") params).get "progress") &&
              (! isNumB ((jsOr (params.get "updates") params).get "progress") ||
                decide (numOf ((jsOr (params.get "updates") params).get "progress") < 0))) = true
          · rw [if_pos h5] at hb
            cases hb
            simp at hc
          · rw [if_neg h5] at hb
            cases hb
      · rw [if_pos h3] at hb
        cases hb
        obtain ⟨gs, hgs⟩ := obj_of_isStr_id ((Bool.and_eq_true _ _).mp h1).2
        subst hgs
        by_cases ht : truthy (JVal.get (.obj gs) "updates") = true
        · refine ⟨ht, ?_⟩
          rw [Bool.not_eq_true] at h3
          simp only [jsOr, ht] at h3
          simp at h3
          exact h3 ht
        · exfalso
          apply h3
          rw [Bool.not_eq_true] at ht
          simp only [jsOr, ht]
          simp [truthy, isObjType]
    · rw [if_pos h2] at hb
      cases hb
      simp at hc
  · rw [if_pos h1] at hb
    cases hb
    simp at hc

/-- C10 counterexample: an object-typed params whose `updates` field is a
truthy non-object does reach the `MISSING_UPDATE_DATA` branch, so that
branch is not unreachable for object-typed params. -/
theorem C10_counterexample :
    executeUpdateTask genUnused
      (.obj [("taskId", .str "1f2e3d4c-5b6a-4987-89ab-0123456789ab"), ("updates", .str "x")]) =
      .error { message := "Update data is required",
               code := some "MISSING_UPDATE_DATA",
               tool := some "updateTask",
               params := some (.obj [("taskId", .str "1f2e3d4c-5b6a-4987-89ab-0123456789ab"),
                                     ("updates", .str "x")]) } ∧
    isObjType (.str "x") = false ∧ truthy (.str "x") = true :=
  ⟨rfl, rfl, rfl⟩

/-- C10 (amended): for each update variant, when the caller-supplied id
passes the format validator and the params object has no `updates` field,
the call does not fail with `MISSING_UPDATE_DATA`: the entire params object
itself is used as the updates payload, and the call succeeds subject only
to the per-field checks (none for tasks, the scheduledTime check for
reminders, the target/progress checks for goals).  The
`MISSING_UPDATE_DATA` branch is reachable exactly when the params carry a
truthy, non-object `updates` field. -/
theorem C10_updates_fallback (dateOk : JVal → Bool) (gen : Gen)
    (fs : List (String × JVal)) (s : String)
    (hupd : lookupField fs "updates" = none) (hok : uuidRegexTest s = true) :
    (JVal.get (.obj fs) "taskId" = .str s →
      executeUpdateTask gen (.obj fs) = .ok
        { actionMetadata := .obj [("tool", .str "updateTask"), ("task_id", .str s),
            ("updates", .obj fs)],
          contextItemId := .str s, contextItemType := .str "task",
          updatedItemType := .str "task", actionIcon := .str "edit" }) ∧
    (JVal.get (.obj fs) "reminderId" = .str s →
      (∀ e, executeUpdateReminder dateOk gen (.obj fs) = .error e →
        e.code = some "INVALID_SCHEDULED_TIME") ∧
      (∀ f, executeUpdateReminder dateOk gen (.obj fs) = .ok f →
        f.actionMetadata.get "updates" = .obj fs)) ∧
    (JVal.get (.obj fs) "goalId" = .str s →
      (∀ e, executeUpdateGoal gen (.obj fs) = .error e →
        e.code = some "INVALID_GOAL_TARGET" ∨ e.code = some "INVALID_GOAL_PROGRESS") ∧
      (∀ f, executeUpdateGoal gen (.obj fs) = .ok f →
        f.actionMetadata.get "updates" = .obj fs)) ∧
    (∀ params2 e2, executeUpdateTask gen params2 = .error e2 →
      e2.code = some "MISSING_UPDATE_DATA" →
      truthy (params2.get "updates") = true ∧ isObjType (params2.get "updates") = false) ∧
    (∀ params2 e2, executeUpdateReminder dateOk gen params2 = .error e2 →
      e2.code = some "MISSING_UPDATE_DATA" →
      truthy (params2.get "updates") = true ∧ isObjType (params2.get "updates") = false) ∧
    (∀ params2 e2, executeUpdateGoal gen params2 = .error e2 →
      e2.code = some "MISSING_UPDATE_DATA" →
      truthy (params2.get "updates") = true ∧ isObjType (params2.get "updates") = false) := by
  have hne := uuidTest_ne_empty hok
  have htr := truthy_str_of_ne hne
  have hu : JVal.get (.obj fs) "updates" = .undefined := by
    simp only [JVal.get, hupd]
  refine ⟨?_, ?_, ?_, ?_, ?_, ?_⟩
  · intro htask
    unfold executeUpdateTask executeUpdateTaskBody
    dsimp only []
    rw [htask, jsOr_of_truthy htr, hu, jsOr_undefined]
    simp [isStrB_str, htr, isValidUUID_str, hok, truthy_obj, isObjType_obj, Except.mapError]
  · intro hrem
    have hbody : executeUpdateReminderBody dateOk gen (.obj fs) =
        (if (truthy (JVal.get (.obj fs) "scheduledTime") &&
            ! dateOk (JVal.get (.obj fs) "scheduledTime")) = true then
          .error { message := "Invalid scheduled time format in updates",
                   code := some "INVALID_SCHEDULED_TIME" }
        else
          .ok { actionMetadata := .obj [("tool", .str "updateReminder"),
                  ("reminder_id", .str s), ("updates", .obj fs)],
                contextItemId := .str s, contextItemType := .str "reminder",
                updatedItemType := .str "reminder", actionIcon := .str "edit" }) := by
      unfold executeUpdateReminderBody
      dsimp only []
      rw [hrem, jsOr_of_truthy htr, hu, jsOr_undefined]
      simp [isStrB_str, htr, isValidUUID_str, hok, truthy_obj, isObjType_obj]
    constructor
    · intro e he
      unfold executeUpdateReminder at he
      obtain ⟨e0, hr0, hcode, _⟩ := mapError_annot_error he
      rw [hbody] at hr0
      by_cases h4 : (truthy (JVal.get (.obj fs) "scheduledTime") &&
          ! dateOk (JVal.get (.obj fs) "scheduledTime")) = true
      · rw [if_pos h4] at hr0
        cases hr0
        exact hcode
      · rw [if_neg h4] at hr0
        cases hr0
    · intro f hf
      unfold executeUpdateReminder at hf
      have hr0 := mapError_annot_ok hf
      rw [hbody] at hr0
      by_cases h4 : (truthy (JVal.get (.obj fs) "scheduledTime") &&
          ! dateOk (JVal.get (.obj fs) "scheduledTime")) = true
      · rw [if_pos h4] at hr0
        cases hr0
      · rw [if_neg h4] at hr0
        cases hr0
        simp [JVal.get, lookupField]
  · intro hgoal
    have hbody : executeUpdateGoalBody gen (.obj fs) =
        (if (! isUndefined (JVal.get (.obj fs) "target") &&
            (! isNumB (JVal.get (.obj fs) "target") ||
              decide (numOf (JVal.get (.obj fs) "target") ≤ 0))) = true then
          .error { message := "Goal target must be a positive number",
                   code := some "INVALID_GOAL_TARGET" }
        else if (! isUndefined (JVal.get (.obj fs) "progress") &&
            (! isNumB (JVal.get (.obj fs) "progress") ||
              decide (numOf (JVal.get (.obj fs) "progress") < 0))) = true then
          .error { message := "Goal progress must be a non-negative number",
                   code := some "INVALID_GOAL_PROGRESS" }
        else
          .ok { actionMetadata := .obj [("tool", .str "updateGoal"),
                  ("goal_id", .str s), ("updates", .obj fs)],
                contextItemId := .str s, contextItemType := .str "goal",
                updatedItemType := .str "goal", actionIcon := .str "edit" }) := by
      unfold executeUpdateGoalBody
      dsimp only []
      rw [hgoal, jsOr_of_truthy htr, hu, jsOr_undefined]
      simp [isStrB_str, htr, isValidUUID_str, hok, truthy_obj, isObjType_obj]
    constructor
    · intro e he
      unfold executeUpdateGoal at he
      obtain ⟨e0, hr0, hcode, _⟩ := mapError_annot_error he
      rw [hbody] at hr0
      by_cases h4 : (! isUndefined (JVal.get (.obj fs) "target") &&
          (! isNumB (JVal.get (.obj fs) "target") ||
            decide (numOf (JVal.get (.obj fs) "target") ≤ 0))) = true
      · rw [if_pos h4] at hr0
        cases hr0
        exact Or.inl hcode
      · rw [if_neg h4] at hr0
        by_cases h5 : (! isUndefined (JVal.get (.obj fs) "progress") &&
            (! isNumB (JVal.get (.obj fs) "progress") ||
              decide (numOf (JVal.get (.obj fs) "progress") < 0))) = true
        · rw [if_pos h5] at hr0
          cases hr0
          exact Or.inr hcode
        · rw [if_neg h5] at hr0
          cases hr0
    · intro f hf
      unfold executeUpdateGoal at hf
      have hr0 := mapError_annot_ok hf
      rw [hbody] at hr0
      by_cases h4 : (! isUndefined (JVal.get (.obj fs) "target") &&
          (! isNumB (JVal.get (.obj fs) "target") ||
            decide (numOf (JVal.get (.obj fs) "target") ≤ 0))) = true
      · rw [if_pos h4] at hr0
        cases hr0
      · rw [if_neg h4] at hr0
        by_cases h5 : (! isUndefined (JVal.get (.obj fs) "progress") &&
            (! isNumB (JVal.get (.obj fs) "progress") ||
              decide (numOf (JVal.get (.obj fs) "progress") < 0))) = true
        · rw [if_pos h5] at hr0
          cases hr0
        · rw [if_neg h5] at hr0
          cases hr0
          simp [JVal.get, lookupField]
  · intro params2 e2 he hcode2
    unfold executeUpdateTask at he
    obtain ⟨e0, hr0, hc0, _⟩ := mapError_annot_error he
    exact updateTaskBody_mud hr0 (by rw [← hc0]; exact hcode2)
  · intro params2 e2 he hcode2
    unfold executeUpdateReminder at he
    obtain ⟨e0, hr0, hc0, _⟩ := mapError_annot_error he
    exact updateReminderBody_mud hr0 (by rw [← hc0]; exact hcode2)
  · intro params2 e2 he hcode2
    unfold executeUpdateGoal at he
    obtain ⟨e0, hr0, hc0, _⟩ := mapError_annot_error he
    exact updateGoalBody_mud hr0 (by rw [← hc0]; exact hcode2)

/-- C10 witness: a params object carrying only a valid `taskId` and a
`status` field is accepted whole as the updates payload. -/
theorem C10_updates_fallback_witness :
    executeUpdateTask genUnused
      (.obj [("taskId", .str "1f2e3d4c-5b6a-4987-89ab-0123456789ab"), ("status", .str "done")]) =
      .ok { actionMetadata := .obj [("tool", .str "updateTask"),
              ("task_id", .str "1f2e3d4c-5b6a-4987-89ab-0123456789ab"),
              ("updates", .obj [("taskId", .str "1f2e3d4c-5b6a-4987-89ab-0123456789ab"),
                                ("status", .str "done")])],
            contextItemId := .str "1f2e3d4c-5b6a-4987-89ab-0123456789ab",
            contextItemType := .str "task",
            updatedItemType := .str "task", actionIcon := .str "edit" } := by
  have h := C10_updates_fallback dateOkAll genUnused
    [("taskId", .str "1f2e3d4c-5b6a-4987-89ab-0123456789ab"), ("status", .str "done")]
    "1f2e3d4c-5b6a-4987-89ab-0123456789ab" rfl (by decide)
  exact h.1 rfl

/-! ## Claim C6 -/

theorem validateExpenses_err (gen : Gen) (i : Nat) (es : List JVal)
    (h : ∃ x ∈ es, (validExpenseItem x && validExpenseAmount x) = false) :
    ∃ err, validateExpenses gen i es = .error err := by
  induction es generalizing i with
  | nil =>
      obtain ⟨x, hx, _⟩ := h
      cases hx
  | cons e rest ih =>
      by_cases hi : validExpenseItem e = true
      · by_cases ha : validExpenseAmount e = true
        · have hrest : ∃ x ∈ rest, (validExpenseItem x && validExpenseAmount x) = false := by
            obtain ⟨x, hx, hbad⟩ := h
            rcases List.mem_cons.mp hx with rfl | hx2
            · rw [hi, ha] at hbad
              cases hbad
            · exact ⟨x, hx2, hbad⟩
          simp only [validateExpenses]
          rw [if_neg (not_not_intro hi), if_neg (not_not_intro ha)]
          cases hg : gen i with
          | error err => exact ⟨err, rfl⟩
          | ok id =>
              dsimp only []
              by_cases hv : uuidRegexTest id = true
              · rw [if_neg (not_not_intro hv)]
                obtain ⟨err, herr⟩ := ih (i + 1) hrest
                rw [herr]
                exact ⟨err, rfl⟩
              · rw [if_pos hv]
                exact ⟨_, rfl⟩
        · simp only [validateExpenses]
          rw [if_neg (not_not_intro hi), if_pos ha]
          exact ⟨_, rfl⟩
      · simp only [validateExpenses]
        rw [if_pos hi]
        exact ⟨_, rfl⟩

/-- C6: when any expense of the batch fails validation, the whole batch
fails with a single structured error and no per-item results: the fragment
the dispatcher returns for the attempt carries only `errorDetails`, with
`multipleActions` (and `actionMetadata`) left unset. -/
theorem C6_batch_atomic (dateOk : JVal → Bool) (gen : Gen) (now : String) (params : JVal)
    (hp : truthy params = true)
    (hbad : ∃ x ∈ expensesOf params, (validExpenseItem x && validExpenseAmount x) = false) :
    (∃ err, executeTrackExpenses gen params = .error err) ∧
    (executeToolIfNeeded dateOk gen now
      (.obj [("tool", .str "trackExpenses"), ("toolParams", params)])).multipleActions = .undefined ∧
    (executeToolIfNeeded dateOk gen now
      (.obj [("tool", .str "trackExpenses"), ("toolParams", params)])).actionMetadata = .undefined ∧
    truthy (executeToolIfNeeded dateOk gen now
      (.obj [("tool", .str "trackExpenses"), ("toolParams", params)])).errorDetails = true := by
  obtain ⟨err, herr⟩ := validateExpenses_err gen 0 (expensesOf params) hbad
  have hlen : expensesOf params ≠ [] := by
    obtain ⟨x, hx, _⟩ := hbad
    intro h0
    rw [h0] at hx
    cases hx
  have hex : executeTrackExpenses gen params = .error (annot "trackExpenses" params err) := by
    unfold executeTrackExpenses executeTrackExpensesBody
    dsimp only []
    rw [if_neg (fun h0 => hlen (List.length_eq_zero.mp h0)), herr]
    rfl
  have hfrag : executeToolIfNeeded dateOk gen now
      (.obj [("tool", .str "trackExpenses"), ("toolParams", params)]) =
      { errorDetails := createToolErrorResponse (.str "trackExpenses")
          (annot "trackExpenses" params err) params now } := by
    unfold executeToolIfNeeded
    dsimp only []
    rw [show jsOr (JVal.get (.obj [("tool", .str "trackExpenses"), ("toolParams", params)]) "tool")
          (JVal.get (.obj [("tool", .str "trackExpenses"), ("toolParams", params)]) "selectedTool") =
        .str "trackExpenses" from rfl]
    rw [show jsOr (JVal.get (.obj [("tool", .str "trackExpenses"), ("toolParams", params)]) "toolParams")
          (JVal.get (.obj [("tool", .str "trackExpenses"), ("toolParams", params)]) "parameters") =
        jsOr params .undefined from rfl]
    rw [jsOr_of_truthy hp]
    rw [if_neg (not_not_intro (show truthy (JVal.str "trackExpenses") = true from rfl))]
    rw [if_neg (not_not_intro hp)]
    rw [show dispatchTool dateOk gen (.str "trackExpenses") params =
        executeTrackExpenses gen params from rfl]
    rw [hex]
  refine ⟨⟨_, hex⟩, ?_, ?_, ?_⟩
  · rw [hfrag]
  · rw [hfrag]
  · rw [hfrag]
    rfl

/-- C6 witness: a concrete batch with a second, zero-amount expense fails
as a whole. -/
theorem C6_batch_atomic_witness :
    (∃ err, executeTrackExpenses genConst
      (.obj [("expenses", .arr [.obj [("item", .str "Tea"), ("amount", .num 3)],
                                .obj [("item", .str "Juice"), ("amount", .num 0)]])]) = .error err) ∧
    (executeToolIfNeeded dateOkAll genConst "2024-01-01T00:00:00Z"
      (.obj [("tool", .str "trackExpenses"),
             ("toolParams", .obj [("expenses",
               .arr [.obj [("item", .str "Tea"), ("amount", .num 3)],
                     .obj [("item", .str "Juice"), ("amount", .num 0)]])])])).multipleActions = .undefined := by
  have h := C6_batch_atomic dateOkAll genConst "2024-01-01T00:00:00Z"
    (.obj [("expenses", .arr [.obj [("item", .str "Tea"), ("amount", .num 3)],
                              .obj [("item", .str "Juice"), ("amount", .num 0)]])])
    rfl
    ⟨.obj [("item", .str "Juice"), ("amount", .num 0)],
     by exact List.mem_cons_of_mem _ (List.mem_cons_self _ _), by decide⟩
  exact ⟨h.1, h.2.1⟩

/-! ## Claim C7 -/

/-- The validated list produced by a fully successful validation loop when
the i-th generator call yields `u i`. -/
def buildValidated (u : Nat → String) : Nat → List JVal → List JVal
  | _, [] => []
  | i, e :: rest => spreadExpense e (u i) :: buildValidated u (i + 1) rest

theorem validateExpenses_ok (gen : Gen) (u : Nat → String) :
    ∀ (i : Nat) (es : List JVal),
    (∀ x ∈ es, validExpenseItem x = true ∧ validExpenseAmount x = true) →
    (∀ j, j < es.length → gen (i + j) = .ok (u (i + j)) ∧ uuidRegexTest (u (i + j)) = true) →
    validateExpenses gen i es = .ok (buildValidated u i es) := by
  intro i es
  induction es generalizing i with
  | nil => intro _ _; rfl
  | cons e rest ih =>
      intro hval hgen
      have he := hval e (List.mem_cons_self e rest)
      have hg0 := hgen 0 (by simp)
      rw [Nat.add_zero] at hg0
      simp only [validateExpenses]
      rw [if_neg (not_not_intro he.1), if_neg (not_not_intro he.2), hg0.1]
      dsimp only []
      rw [if_neg (not_not_intro hg0.2)]
      rw [ih (i + 1) (fun x hx => hval x (List.mem_cons_of_mem e hx))
        (fun j hj => by
          have h2 := hgen (j + 1) (by simpa using Nat.succ_lt_succ hj)
          rw [show i + (j + 1) = i + 1 + j by omega] at h2
          exact h2)]
      rfl

theorem buildValidated_length (u : Nat → String) :
    ∀ (i : Nat) (es : List JVal), (buildValidated u i es).length = es.length := by
  intro i es
  induction es generalizing i with
  | nil => rfl
  | cons e rest ih => simp [buildValidated, ih]

theorem lookup_setKey_same (fs : List (String × JVal)) (k : String) (v : JVal) :
    lookupField (setKey fs k v) k = some v := by
  induction fs with
  | nil => simp [setKey, lookupField]
  | cons p rest ih =>
      obtain ⟨k2, w⟩ := p
      by_cases hk : k2 = k
      · subst hk
        simp [setKey, lookupField]
      · simp [setKey, lookupField, hk, ih]

theorem lookup_setKey_other (fs : List (String × JVal)) (k : String) (v : JVal)
    (k2 : String) (h : k ≠ k2) :
    lookupField (setKey fs k v) k2 = lookupField fs k2 := by
  induction fs with
  | nil => simp [setKey, lookupField, h]
  | cons p rest ih =>
      obtain ⟨k3, w⟩ := p
      by_cases hk : k3 = k
      · subst hk
        simp [setKey, lookupField, h]
      · simp [setKey, lookupField, hk, ih]

theorem obj_of_validItem {e : JVal} (h : validExpenseItem e = true) :
    ∃ gs, e = .obj gs := by
  cases e with
  | obj gs => exact ⟨gs, rfl⟩
  | undefined => simp [validExpenseItem, JVal.get, truthy] at h
  | null => simp [validExpenseItem, JVal.get, truthy] at h
  | bool b => simp [validExpenseItem, JVal.get, truthy] at h
  | num q => simp [validExpenseItem, JVal.get, truthy] at h
  | str s => simp [validExpenseItem, JVal.get, truthy] at h
  | arr xs => simp [validExpenseItem, JVal.get, truthy] at h

theorem spreadExpense_get_id {e : JVal} {gs : List (String × JVal)} (he : e = .obj gs)
    (id : String) : (spreadExpense e id).get "expense_id" = .str id := by
  subst he
  simp [spreadExpense, JVal.get, lookup_setKey_same]

theorem spreadExpense_get_amount {e : JVal} {gs : List (String × JVal)} (he : e = .obj gs)
    (id : String) : (spreadExpense e id).get "amount" = e.get "amount" := by
  subst he
  simp only [spreadExpense, JVal.get]
  rw [lookup_setKey_other _ _ _ _ (by decide), lookup_setKey_other _ _ _ _ (by decide)]

theorem sumFold_buildValidated (u : Nat → String) :
    ∀ (i : Nat) (es : List JVal) (acc : ℚ),
    (∀ x ∈ es, validExpenseItem x = true) →
    (buildValidated u i es).foldl (fun sum exp => sum + numOf (exp.get "amount")) acc =
      es.foldl (fun sum exp => sum + numOf (exp.get "amount")) acc := by
  intro i es
  induction es generalizing i with
  | nil => intro acc _; rfl
  | cons e rest ih =>
      intro acc hval
      obtain ⟨gs, hgs⟩ := obj_of_validItem (hval e (List.mem_cons_self e rest))
      simp only [buildValidated, List.foldl]
      rw [spreadExpense_get_amount hgs]
      exact ih (i + 1) _ (fun x hx => hval x (List.mem_cons_of_mem e hx))

theorem sumAmounts_buildValidated (u : Nat → String) (i : Nat) (es : List JVal)
    (hval : ∀ x ∈ es, validExpenseItem x = true) :
    sumAmounts (buildValidated u i es) = sumAmounts es :=
  sumFold_buildValidated u i es 0 hval

theorem buildValidated_getD (u : Nat → String) :
    ∀ (es : List JVal) (j i : Nat), j < es.length →
    (buildValidated u i es).getD j .undefined = spreadExpense (es.getD j .undefined) (u (i + j)) := by
  intro es
  induction es with
  | nil => intro j i hj; cases hj
  | cons e rest ih =>
      intro j i hj
      cases j with
      | zero => simp [buildValidated, List.getD]
      | succ j2 =>
          have h2 := ih j2 (i + 1) (by simpa using hj)
          rw [show i + (j2 + 1) = i + 1 + j2 by omega]
          simpa [buildValidated, List.getD_cons_succ] using h2

theorem mapEntries_getD :
    ∀ (es : List JVal) (j : Nat), j < es.length →
    ((es.map (fun e => JVal.obj [("type", .str "expense"), ("id", e.get "expense_id"),
      ("data", e)])).getD j .undefined).get "id" = (es.getD j .undefined).get "expense_id" := by
  intro es
  induction es with
  | nil => intro j hj; cases hj
  | cons e rest ih =>
      intro j hj
      cases j with
      | zero => simp [List.getD, JVal.get, lookupField]
      | succ j2 => simpa [List.getD_cons_succ] using ih j2 (by simpa using hj)

/-- C7: for every valid nonempty batch with successful identifier minting,
`trackExpenses` succeeds; `multipleActions` is an array of one entry per
expense, the j-th entry carrying the j-th freshly minted identifier as its
`id`; `total_amount` equals the sum of the amounts; and no singular context
item is set. -/
theorem C7_trackExpenses (gen : Gen) (params : JVal) (u : Nat → String)
    (hval : ∀ x ∈ expensesOf params, validExpenseItem x = true ∧ validExpenseAmount x = true)
    (hne : expensesOf params ≠ [])
    (hgen : ∀ j, j < (expensesOf params).length →
      gen j = .ok (u j) ∧ uuidRegexTest (u j) = true) :
    ∃ f, executeTrackExpenses gen params = .ok f ∧
      f.multipleActions = .arr ((buildValidated u 0 (expensesOf params)).map (fun e =>
        JVal.obj [("type", .str "expense"), ("id", e.get "expense_id"), ("data", e)])) ∧
      (∀ l, f.multipleActions = .arr l →
        l.length = (expensesOf params).length ∧
        (∀ j, j < (expensesOf params).length → (l.getD j .undefined).get "id" = .str (u j))) ∧
      f.actionMetadata.get "total_amount" = .num (sumAmounts (expensesOf params)) ∧
      f.contextItemType = .undefined ∧ f.contextItemId = .undefined := by
  have hvv := validateExpenses_ok gen u 0 (expensesOf params) hval
    (fun j hj => by simpa using hgen j hj)
  have hex : executeTrackExpenses gen params = .ok
      { actionMetadata := .obj [("tool", .str "trackExpenses"),
          ("expenses", .arr (buildValidated u 0 (expensesOf params))),
          ("total_amount", .num (sumAmounts (buildValidated u 0 (expensesOf params))))],
        multipleActions := .arr ((buildValidated u 0 (expensesOf params)).map (fun e =>
          JVal.obj [("type", .str "expense"), ("id", e.get "expense_id"), ("data", e)])),
        updatedItemType := .str "expense",
        actionIcon := .str "receipt" } := by
    unfold executeTrackExpenses executeTrackExpensesBody
    dsimp only []
    rw [if_neg (fun h0 => hne (List.length_eq_zero.mp h0)), hvv]
    rfl
  refine ⟨_, hex, rfl, ?_, ?_, rfl, rfl⟩
  · intro l hl
    cases hl
    constructor
    · rw [List.length_map, buildValidated_length]
    · intro j hj
      have hj2 : j < (buildValidated u 0 (expensesOf params)).length := by
        rw [buildValidated_length]
        exact hj
      rw [mapEntries_getD _ j hj2, buildValidated_getD u _ j 0 hj]
      have hmem : (expensesOf params).getD j .undefined ∈ expensesOf params := by
        rw [List.getD_eq_getElem _ _ hj]
        exact List.getElem_mem hj
      obtain ⟨gs, hgs⟩ := obj_of_validItem ((hval _ hmem).1)
      rw [Nat.zero_add]
      exact spreadExpense_get_id hgs (u j)
  · show (JVal.obj [("tool", .str "trackExpenses"),
        ("expenses", .arr (buildValidated u 0 (expensesOf params))),
        ("total_amount", .num (sumAmounts (buildValidated u 0 (expensesOf params))))]).get
        "total_amount" = .num (sumAmounts (expensesOf params))
    rw [show (JVal.obj [("tool", .str "trackExpenses"),
        ("expenses", .arr (buildValidated u 0 (expensesOf params))),
        ("total_amount", .num (sumAmounts (buildValidated u 0 (expensesOf params))))]).get
        "total_amount" = .num (sumAmounts (buildValidated u 0 (expensesOf params))) from rfl]
    rw [sumAmounts_buildValidated u 0 _ (fun x hx => (hval x hx).1)]

/-- The concrete single-expense batch from the specification. -/
def coffeeParams : JVal :=
  .obj [("expenses", .arr [.obj [("item", .str "Coffee"), ("amount", .num 5.5),
        ("category", .str "Food"), ("date", .str "2024-01-15")]])]

/-- C7 witness: the Coffee batch yields exactly one `multipleActions`
entry with the freshly minted id, `total_amount` 5.5, and no context item
type. -/
theorem C7_trackExpenses_witness :
    ∃ f, executeTrackExpenses genConst coffeeParams = .ok f ∧
      (∀ l, f.multipleActions = .arr l → l.length = 1 ∧
        (l.getD 0 .undefined).get "id" = .str "1f2e3d4c-5b6a-4987-89ab-0123456789ab") ∧
      f.actionMetadata.get "total_amount" = .num (5.5 : ℚ) ∧
      f.contextItemType = .undefined := by
  obtain ⟨f, h1, h2, h3, h4, h5, h6⟩ := C7_trackExpenses genConst coffeeParams
    (fun _ => "1f2e3d4c-5b6a-4987-89ab-0123456789ab")
    (by
      intro x hx
      have hx2 : x = JVal.obj [("item", .str "Coffee"), ("amount", .num 5.5),
          ("category", .str "Food"), ("date", .str "2024-01-15")] := List.mem_singleton.mp hx
      subst hx2
      refine ⟨by decide, ?_⟩
      simp [validExpenseAmount, truthy, isNumB, numOf, JVal.get, lookupField]
      norm_num)
    (fun h => List.cons_ne_nil _ _ h)
    (by
      intro j hj
      refine ⟨rfl, ?_⟩
      show uuidRegexTest "1f2e3d4c-5b6a-4987-89ab-0123456789ab" = true
      decide)
  refine ⟨f, h1, fun l hl => ?_, ?_, h5⟩
  · have hb := h3 l hl
    exact ⟨hb.1, hb.2 0 (by decide)⟩
  · rw [h4]
    rw [show sumAmounts (expensesOf coffeeParams) = (5.5 : ℚ) by
      simp [sumAmounts, expensesOf, coffeeParams, JVal.get, lookupField, List.foldl, numOf]]

/-! ## Claim C1 -/

/-- A model envelope naming `updateTask` with a malformed task id. -/
def c1Parsed : JVal :=
  .obj [("tool", .str "updateTask"),
        ("toolParams", .obj [("taskId", .str "bad"), ("updates", .obj [])])]

/-- C1: at a failing tool attempt the dispatcher does return a structural
`{errorDetails: ...}` fragment (first two conjuncts), but `parseAIResponse`
builds the final `errorDetails` from the model envelope only
(`parsed.errorDetails || null`), discarding the fragment: on this input the
response has `errorDetails` and `actionMetadata` both null, so neither the
exactly-one invariant nor the propagation of the failure fragment holds in
the code. -/
theorem C1_errorDetails_dropped :
    truthy (executeToolIfNeeded dateOkAll genUnused "2024-01-01T00:00:00Z"
      c1Parsed).errorDetails = true ∧
    (executeToolIfNeeded dateOkAll genUnused "2024-01-01T00:00:00Z"
      c1Parsed).actionMetadata = .undefined ∧
    (parseAIResponse dateOkAll (decodeTo c1Parsed) genUnused "2024-01-01T00:00:00Z"
      "\x7b\x7d").errorDetails = .null ∧
    (parseAIResponse dateOkAll (decodeTo c1Parsed) genUnused "2024-01-01T00:00:00Z"
      "\x7b\x7d").actionMetadata = .null :=
  ⟨rfl, rfl, rfl, rfl⟩

/-! ## Claim C9 -/

/-- C9: a chat input that matches the identity patterns short-circuits:
the handler returns HTTP 200 with the fixed identity sentence, actionIcon
`info` and every other structured field null, and the result does not
depend on the prompt builder, the upstream call, the decoder or the
generator. -/
theorem C9_identity_short_circuit (upstream : JVal → JVal → Except JsError JVal)
    (buildPrompt : JVal → JVal → JVal → JVal → JVal → String)
    (dateOk : JVal → Bool) (decode : String → Except String JVal) (gen : Gen)
    (now : String) (body : JVal) (s : String)
    (hin : body.get "chatInput" = .str s) (hid : isIdentityQuestion s = true) :
    chatHandler upstream buildPrompt dateOk decode gen now body =
      .ok { status := 200, body := identityBody } ∧
    (∀ upstream2 buildPrompt2 decode2 gen2,
      chatHandler upstream2 buildPrompt2 dateOk decode2 gen2 now body =
        chatHandler upstream buildPrompt dateOk decode gen now body) := by
  have hne : s ≠ "" := by
    intro h0
    rw [h0] at hid
    exact absurd hid (by decide)
  have hmain : ∀ (up : JVal → JVal → Except JsError JVal)
      (bp : JVal → JVal → JVal → JVal → JVal → String)
      (dec : String → Except String JVal) (g : Gen),
      chatHandler up bp dateOk dec g now body = .ok { status := 200, body := identityBody } := by
    intro up bp dec g
    unfold chatHandler
    rw [hin]
    dsimp only []
    rw [if_neg (not_not_intro (truthy_str_of_ne hne)), if_pos hid]
  exact ⟨hmain upstream buildPrompt decode gen,
    fun u2 b2 d2 g2 => (hmain u2 b2 d2 g2).trans (hmain upstream buildPrompt decode gen).symm⟩

/-- C9 witness: the handler applied at the concrete input from the spec. -/
theorem C9_identity_short_circuit_witness :
    chatHandler (fun _ _ => .error { message := "unreachable upstream" })
      (fun _ _ _ _ _ => "unused prompt") dateOkAll decodeFail genUnused
      "2024-01-01T00:00:00Z" (.obj [("chatInput", .str "Who made you?")]) =
      .ok { status := 200, body := identityBody } := by
  have h := C9_identity_short_circuit (fun _ _ => .error { message := "unreachable upstream" })
    (fun _ _ _ _ _ => "unused prompt") dateOkAll decodeFail genUnused
    "2024-01-01T00:00:00Z" (.obj [("chatInput", .str "Who made you?")])
    "Who made you?" rfl (by decide)
  exact h.1

/-! ## Claim C2 -/

theorem jsOr_of_falsy {a : JVal} (h : truthy a = false) (b : JVal) : jsOr a b = b := by
  unfold jsOr
  rw [h]
  rfl

/-- C2: on a successful decode the merged result is
`mergeParsed (executeToolIfNeeded parsed) parsed`, in which every field the
dispatcher fragment populates (is truthy in) takes precedence over the
same-named field of the model envelope, for each of actionMetadata,
contextItemId, contextItemType, updatedItemType, actionIcon and
multipleActions; and the tool name and parameters are accepted under the
aliases selectedTool/parameters exactly as under tool/toolParams. -/
theorem C2_dispatcher_precedence (dateOk : JVal → Bool)
    (decode : String → Except String JVal) (gen : Gen) (now msg : String) (parsed : JVal) :
    (∀ sp, extractBraceSpan msg = some sp → decode sp = .ok parsed →
      parseAIResponse dateOk decode gen now msg =
        mergeParsed (executeToolIfNeeded dateOk gen now parsed) parsed msg) ∧
    (truthy (executeToolIfNeeded dateOk gen now parsed).actionMetadata = true →
      (mergeParsed (executeToolIfNeeded dateOk gen now parsed) parsed msg).actionMetadata =
        (executeToolIfNeeded dateOk gen now parsed).actionMetadata) ∧
    (truthy (executeToolIfNeeded dateOk gen now parsed).contextItemId = true →
      (mergeParsed (executeToolIfNeeded dateOk gen now parsed) parsed msg).contextItemId =
        (executeToolIfNeeded dateOk gen now parsed).contextItemId) ∧
    (truthy (executeToolIfNeeded dateOk gen now parsed).contextItemType = true →
      (mergeParsed (executeToolIfNeeded dateOk gen now parsed) parsed msg).contextItemType =
        (executeToolIfNeeded dateOk gen now parsed).contextItemType) ∧
    (truthy (executeToolIfNeeded dateOk gen now parsed).updatedItemType = true →
      (mergeParsed (executeToolIfNeeded dateOk gen now parsed) parsed msg).updatedItemType =
        (executeToolIfNeeded dateOk gen now parsed).updatedItemType) ∧
    (truthy (executeToolIfNeeded dateOk gen now parsed).actionIcon = true →
      (mergeParsed (executeToolIfNeeded dateOk gen now parsed) parsed msg).actionIcon =
        (executeToolIfNeeded dateOk gen now parsed).actionIcon) ∧
    (truthy (executeToolIfNeeded dateOk gen now parsed).multipleActions = true →
      (mergeParsed (executeToolIfNeeded dateOk gen now parsed) parsed msg).multipleActions =
        (executeToolIfNeeded dateOk gen now parsed).multipleActions) ∧
    (∀ tv pv, executeToolIfNeeded dateOk gen now (.obj [("selectedTool", tv), ("parameters", pv)]) =
      executeToolIfNeeded dateOk gen now (.obj [("tool", tv), ("toolParams", pv)])) := by
  refine ⟨?_, ?_, ?_, ?_, ?_, ?_, ?_, ?_⟩
  · intro sp h1 h2
    unfold parseAIResponse
    rw [h1]
    dsimp only []
    rw [h2]
  · intro h
    show jsOr (jsOr _ _) .null = _
    rw [jsOr_of_truthy h, jsOr_of_truthy h]
  · intro h
    show jsOr (jsOr _ _) .null = _
    rw [jsOr_of_truthy h, jsOr_of_truthy h]
  · intro h
    show jsOr (jsOr _ _) .null = _
    rw [jsOr_of_truthy h, jsOr_of_truthy h]
  · intro h
    show jsOr (jsOr _ _) .null = _
    rw [jsOr_of_truthy h, jsOr_of_truthy h]
  · intro h
    show jsOr (jsOr _ _) .null = _
    rw [jsOr_of_truthy h, jsOr_of_truthy h]
  · intro h
    show jsOr (jsOr _ _) .null = _
    rw [jsOr_of_truthy h, jsOr_of_truthy h]
  · intro tv pv
    unfold executeToolIfNeeded
    dsimp only []
    rw [show JVal.get (.obj [("selectedTool", tv), ("parameters", pv)]) "tool" = .undefined from rfl,
        show JVal.get (.obj [("selectedTool", tv), ("parameters", pv)]) "selectedTool" = tv from rfl,
        show JVal.get (.obj [("selectedTool", tv), ("parameters", pv)]) "toolParams" = .undefined from rfl,
        show JVal.get (.obj [("selectedTool", tv), ("parameters", pv)]) "parameters" = pv from rfl,
        show JVal.get (.obj [("tool", tv), ("toolParams", pv)]) "tool" = tv from rfl,
        show JVal.get (.obj [("tool", tv), ("toolParams", pv)]) "selectedTool" = .undefined from rfl,
        show JVal.get (.obj [("tool", tv), ("toolParams", pv)]) "toolParams" = pv from rfl,
        show JVal.get (.obj [("tool", tv), ("toolParams", pv)]) "parameters" = .undefined from rfl,
        jsOr_undefined tv, jsOr_undefined pv]
    by_cases htv : truthy tv = true
    · rw [jsOr_of_truthy htv]
      by_cases hpv : truthy pv = true
      · rw [jsOr_of_truthy hpv]
      · rw [Bool.not_eq_true] at hpv
        rw [jsOr_of_falsy hpv]
        simp [truthy]
        intro _ h2
        exact absurd (show truthy pv = true from h2) (by simp [hpv])
    · rw [Bool.not_eq_true] at htv
      rw [jsOr_of_falsy htv]
      simp [truthy]
      intro h1 _
      exact absurd (show truthy tv = true from h1) (by simp [htv])

/-- C2 witness: a concrete createTask envelope in which the model also
supplied its own actionMetadata; the dispatcher value wins in the merge. -/
theorem C2_dispatcher_precedence_witness :
    (mergeParsed (executeToolIfNeeded dateOkAll genConst "2024-01-01T00:00:00Z"
        (.obj [("tool", .str "createTask"),
               ("toolParams", .obj [("description", .str "buy milk")]),
               ("actionMetadata", .str "model supplied value")]))
      (.obj [("tool", .str "createTask"),
             ("toolParams", .obj [("description", .str "buy milk")]),
             ("actionMetadata", .str "model supplied value")]) "raw model text").actionMetadata =
    (executeToolIfNeeded dateOkAll genConst "2024-01-01T00:00:00Z"
      (.obj [("tool", .str "createTask"),
             ("toolParams", .obj [("description", .str "buy milk")]),
             ("actionMetadata", .str "model supplied value")])).actionMetadata := by
  have h := C2_dispatcher_precedence dateOkAll (decodeTo (.obj [("tool", .str "createTask"),
      ("toolParams", .obj [("description", .str "buy milk")]),
      ("actionMetadata", .str "model supplied value")])) genConst "2024-01-01T00:00:00Z"
    "raw model text"
    (.obj [("tool", .str "createTask"),
           ("toolParams", .obj [("description", .str "buy milk")]),
           ("actionMetadata", .str "model supplied value")])
  exact h.2.1 (by decide)

/-! ## Claim C3 -/

theorem firstIdxAux_spec {p : Char → Bool} :
    ∀ {l : List Char} {i : Nat}, firstIdxAux p l = some i →
    i < l.length ∧ p (l.getD i ' ') = true ∧ ∀ k, k < i → p (l.getD k ' ') = false := by
  intro l
  induction l with
  | nil => intro i h; cases h
  | cons c rest ih =>
      intro i h
      simp only [firstIdxAux] at h
      by_cases hc : p c = true
      · rw [if_pos hc] at h
        cases h
        exact ⟨by simp, hc, fun k hk => absurd hk (Nat.not_lt_zero k)⟩
      · rw [if_neg hc] at h
        cases hr : firstIdxAux p rest with
        | none => rw [hr] at h; cases h
        | some i2 =>
            rw [hr] at h
            simp only [Option.map] at h
            cases h
            obtain ⟨hlen, hp, hbefore⟩ := ih hr
            refine ⟨by simpa using Nat.succ_lt_succ hlen, by simpa using hp, ?_⟩
            intro k hk
            cases k with
            | zero =>
                rw [Bool.not_eq_true] at hc
                simpa using hc
            | succ k2 => simpa using hbefore k2 (by omega)

theorem lastIdxAux_none {p : Char → Bool} :
    ∀ {l : List Char}, lastIdxAux p l = none →
    ∀ k, k < l.length → p (l.getD k ' ') = false := by
  intro l
  induction l with
  | nil => intro _ k hk; cases hk
  | cons c rest ih =>
      intro h k hk
      simp only [lastIdxAux] at h
      cases hr : lastIdxAux p rest with
      | some k2 => rw [hr] at h; cases h
      | none =>
          rw [hr] at h
          by_cases hc : p c = true
          · rw [if_pos hc] at h; cases h
          · cases k with
            | zero =>
                rw [Bool.not_eq_true] at hc
                simpa using hc
            | succ k3 => simpa using ih hr k3 (by simpa using hk)

theorem lastIdxAux_spec {p : Char → Bool} :
    ∀ {l : List Char} {j : Nat}, lastIdxAux p l = some j →
    j < l.length ∧ p (l.getD j ' ') = true ∧
      ∀ k, j < k → k < l.length → p (l.getD k ' ') = false := by
  intro l
  induction l with
  | nil => intro j h; cases h
  | cons c rest ih =>
      intro j h
      simp only [lastIdxAux] at h
      cases hr : lastIdxAux p rest with
      | some k2 =>
          rw [hr] at h
          cases h
          obtain ⟨hlen, hp, hafter⟩ := ih hr
          refine ⟨by simpa using Nat.succ_lt_succ hlen, by simpa using hp, ?_⟩
          intro k hk1 hk2
          cases k with
          | zero => cases hk1
          | succ k3 => simpa using hafter k3 (by omega) (by simpa using hk2)
      | none =>
          rw [hr] at h
          by_cases hc : p c = true
          · rw [if_pos hc] at h
            cases h
            refine ⟨by simp, hc, ?_⟩
            intro k hk1 hk2
            cases k with
            | zero => cases hk1
            | succ k3 => simpa using lastIdxAux_none hr k3 (by simpa using hk2)
          · rw [if_neg hc] at h
            cases h

/-- C3: `parseAIResponse` never throws (the explicit try/catch version
always returns `.ok` of the plain function); when it finds a span, that
span runs from the first opening brace of the text through the last closing
brace; and on any decode failure (no span, or `JSON.parse` throwing on the
span) the result is the plain-text degrade, whose structured fields are all
null and whose `aiResponseText` is the raw input. -/
theorem C3_parse_never_throws (dateOk : JVal → Bool) (decode : String → Except String JVal)
    (gen : Gen) (now msg : String) :
    parseAIResponseE dateOk decode gen now msg =
      .ok (parseAIResponse dateOk decode gen now msg) ∧
    (∀ sp, extractBraceSpan msg = some sp → ∃ i j, i < j ∧ j < msg.data.length ∧
      msg.data.getD i ' ' = lbraceChar ∧
      (∀ k, k < i → msg.data.getD k ' ' ≠ lbraceChar) ∧
      msg.data.getD j ' ' = rbraceChar ∧
      (∀ k, j < k → k < msg.data.length → msg.data.getD k ' ' ≠ rbraceChar) ∧
      sp = String.mk ((msg.data.take (j + 1)).drop i)) ∧
    (extractBraceSpan msg = none →
      parseAIResponse dateOk decode gen now msg = fallbackResp msg) ∧
    (∀ sp e, extractBraceSpan msg = some sp → decode sp = .error e →
      parseAIResponse dateOk decode gen now msg = fallbackResp msg) ∧
    ((fallbackResp msg).aiResponseText = .str msg ∧
     (fallbackResp msg).actionMetadata = .null ∧
     (fallbackResp msg).contextItemId = .null ∧
     (fallbackResp msg).contextItemType = .null ∧
     (fallbackResp msg).updatedItemType = .null ∧
     (fallbackResp msg).actionIcon = .null ∧
     (fallbackResp msg).multipleActions = .null ∧
     (fallbackResp msg).errorDetails = .null) := by
  refine ⟨?_, ?_, ?_, ?_, rfl, rfl, rfl, rfl, rfl, rfl, rfl, rfl⟩
  · unfold parseAIResponseE parseAIResponseTry parseAIResponse
    cases hs : extractBraceSpan msg with
    | none => rfl
    | some sp =>
        dsimp only []
        cases hd : decode sp with
        | error e => rfl
        | ok parsed => rfl
  · intro sp hsp
    unfold extractBraceSpan at hsp
    cases hf : firstIdxAux (· == lbraceChar) msg.data with
    | none => rw [hf] at hsp; cases hsp
    | some i =>
        cases hl : lastIdxAux (· == rbraceChar) msg.data with
        | none => rw [hf, hl] at hsp; cases hsp
        | some j =>
            rw [hf, hl] at hsp
            dsimp only [] at hsp
            by_cases hij : i < j
            · rw [if_pos hij] at hsp
              cases hsp
              obtain ⟨hfl, hfp, hfbefore⟩ := firstIdxAux_spec hf
              obtain ⟨hll, hlp, hlafter⟩ := lastIdxAux_spec hl
              refine ⟨i, j, hij, hll, eq_of_beq hfp, ?_, eq_of_beq hlp, ?_, rfl⟩
              · intro k hk hkc
                have := hfbefore k hk
                rw [hkc] at this
                simp at this
              · intro k hk1 hk2 hkc
                have := hlafter k hk1 hk2
                rw [hkc] at this
                simp at this
            · rw [if_neg hij] at hsp
              cases hsp
  · intro hnone
    unfold parseAIResponse
    rw [hnone]
  · intro sp e hsp hd
    unfold parseAIResponse
    rw [hsp]
    dsimp only []
    rw [hd]

/-- C3 witness: the theorem applied at inputs with no braces, and at a
brace span on which the decoder throws. -/
theorem C3_parse_never_throws_witness :
    parseAIResponse dateOkAll decodeFail genUnused "2024-01-01T00:00:00Z"
      "plain text answer" = fallbackResp "plain text answer" ∧
    parseAIResponseE dateOkAll decodeFail genUnused "2024-01-01T00:00:00Z"
      "plain text answer" =
      .ok (parseAIResponse dateOkAll decodeFail genUnused "2024-01-01T00:00:00Z"
        "plain text answer") ∧
    parseAIResponse dateOkAll decodeFail genUnused "2024-01-01T00:00:00Z"
      "a \x7b not json \x7d b" = fallbackResp "a \x7b not json \x7d b" := by
  have h1 := C3_parse_never_throws dateOkAll decodeFail genUnused "2024-01-01T00:00:00Z"
    "plain text answer"
  have h2 := C3_parse_never_throws dateOkAll decodeFail genUnused "2024-01-01T00:00:00Z"
    "a \x7b not json \x7d b"
  exact ⟨h1.2.2.1 rfl, h1.1, h2.2.2.2.1 "\x7b not json \x7d" "Unexpected token" rfl rfl⟩

end Reva
